import Mathlib

/-!
Verification of the `usb_hid` gadget module (src/src/usb_hid.py).

The module manipulates a configfs-shaped filesystem rooted at
`/sys/kernel/config/usb_gadget/adafruit-blinka` and keeps module-level state
(`this.boot_device`, `this.devices`) plus per-class transport state
(`Device._device_fds`, `Device._last_received_report`).

The shallow embedding below models:
 - the filesystem as an association list from paths (component lists,
   relative to the gadget root) to entries (directory / text file /
   binary file / symlink).  The kernel-provided `.../dev` attribute files
   read by `get_device_path` are injected into the initial store.
 - `Path.mkdir(parents=True[, exist_ok=True])`, `Path.write_text`,
   `Path.write_bytes`, `Path.symlink_to`, `Path.rmdir`, `Path.unlink`
   and the glob patterns used by `disable` as operations on that store.
   Directory-removal follows configfs semantics: attribute files do not
   keep a directory alive, only child directories and links do.
 - Python exceptions as an error type (`Except`).
 - the non-deterministic outcomes of `os.open`, `os.write` and the
   non-blocking `fd.read` as injected oracle arguments.
-/

/-- Decidable equality for `Except`, used to evaluate the model on concrete
inputs. -/
instance {ε α : Type} [DecidableEq ε] [DecidableEq α] : DecidableEq (Except ε α) :=
  fun x y =>
    match x, y with
    | .ok a, .ok b =>
      if h : a = b then .isTrue (by rw [h])
      else .isFalse (by intro hc; cases hc; exact h rfl)
    | .error e, .error f =>
      if h : e = f then .isTrue (by rw [h])
      else .isFalse (by intro hc; cases hc; exact h rfl)
    | .ok _, .error _ => .isFalse (by intro hc; cases hc)
    | .error _, .ok _ => .isFalse (by intro hc; cases hc)

namespace UsbHid

/-- Python exception kinds observable in `usb_hid.py`. -/
inductive PyErr where
  | fileNotFound
  | fileExists
  | indexError
  | wouldBlock
  | stopIteration
  | osError (errno : Nat)
  | overflow
  | other
  deriving DecidableEq, Repr

/-- A filesystem entry: directory, text attribute file, binary attribute
file, or symbolic link. -/
inductive Entry where
  | dir
  | tfile (content : String)
  | bfile (content : List Nat)
  | link (target : List String)
  deriving DecidableEq, Repr

/-- A path, as its list of components relative to the gadget root
`/sys/kernel/config/usb_gadget/adafruit-blinka`; `[]` is the gadget root
itself. -/
abbrev FsPath := List String

/-- The filesystem store: an association list from paths to entries. -/
abbrev Fs := List (FsPath × Entry)

/-- Lookup of the entry at a path. -/
def Fs.get (fs : Fs) (p : FsPath) : Option Entry :=
  match fs with
  | [] => none
  | (q, e) :: t => if q = p then some e else Fs.get t p

/-- Create or overwrite the entry at a path. -/
def Fs.set (fs : Fs) (p : FsPath) (e : Entry) : Fs :=
  match fs with
  | [] => [(p, e)]
  | (q, e') :: t => if q = p then (p, e) :: t else (q, e') :: Fs.set t p e

/-- Remove the entry at exactly this path (`Path.unlink`). -/
def Fs.eraseKey (fs : Fs) (p : FsPath) : Fs :=
  fs.filter (fun pe => ¬ pe.1 = p)

/-- `q` is an ancestor of `p` or `p` itself (component-wise). -/
def underPath (q p : FsPath) : Bool :=
  decide (q = p.take q.length)

/-- Create the directory at `q` when nothing exists there yet. -/
def ensureDir (fs : Fs) (q : FsPath) : Fs :=
  if (fs.get q).isNone then fs.set q .dir else fs

/-- Walk from `done` through the remaining components, creating each missing
directory on the way (the worker of `mkdir(parents=True)`). -/
def insertTreeAux (fs : Fs) (done : FsPath) (rest : List String) : Fs :=
  match rest with
  | [] => ensureDir fs done
  | c :: t => insertTreeAux (ensureDir fs done) (done ++ [c]) t

/-- `mkdir(parents=True)`: create every missing ancestor directory, then the
directory itself; existing entries are left untouched. -/
def insertTree (fs : Fs) (p : FsPath) : Fs :=
  insertTreeAux fs [] p

/-- `Path(p).mkdir(parents=True, exist_ok=True)`: succeeds if `p` is already
a directory, fails with `FileExistsError` if `p` exists as a non-directory,
otherwise creates `p` (and missing parents). -/
def mkdirP (fs : Fs) (p : FsPath) : Except PyErr Fs :=
  match fs.get p with
  | some .dir => .ok fs
  | some _ => .error .fileExists
  | none => .ok (insertTree fs p)

/-- `Path(p).mkdir(parents=True)` (no `exist_ok`): fails with
`FileExistsError` whenever `p` already exists. -/
def mkdirStrict (fs : Fs) (p : FsPath) : Except PyErr Fs :=
  match fs.get p with
  | some _ => .error .fileExists
  | none => .ok (insertTree fs p)

/-- `Path(p).write_text(c)`: requires the parent directory to exist
(`FileNotFoundError` when it is missing, `NotADirectoryError`-like failure
when it is not a directory), then creates/truncates the file. -/
def writeText (fs : Fs) (p : FsPath) (c : String) : Except PyErr Fs :=
  match fs.get p.dropLast with
  | some .dir => .ok (fs.set p (.tfile c))
  | some _ => .error .other
  | none => .error .fileNotFound

/-- `Path(p).write_bytes(b)`, with the same parent-directory requirement. -/
def writeBytes (fs : Fs) (p : FsPath) (b : List Nat) : Except PyErr Fs :=
  match fs.get p.dropLast with
  | some .dir => .ok (fs.set p (.bfile b))
  | some _ => .error .other
  | none => .error .fileNotFound

/-- `Path(dst).symlink_to(target)`: `FileExistsError` if `dst` already
exists, `FileNotFoundError` if its parent directory is missing. -/
def symlinkTo (fs : Fs) (dst : FsPath) (target : FsPath) : Except PyErr Fs :=
  match fs.get dst with
  | some _ => .error .fileExists
  | none =>
    match fs.get dst.dropLast with
    | some .dir => .ok (fs.set dst (.link target))
    | some _ => .error .fileNotFound
    | none => .error .fileNotFound

/-- Does any strict descendant of `q` keep it alive for `rmdir`?  Under
configfs semantics only child directories and links do; attribute files are
removed together with their directory. -/
def hasLiveChild (fs : Fs) (q : FsPath) : Bool :=
  fs.any (fun pe =>
    (¬ pe.1 = q) && underPath q pe.1 &&
      (match pe.2 with
       | .dir => true
       | .link _ => true
       | _ => false))

/-- `Path(q).rmdir()` with configfs semantics: fails if `q` is missing
(`FileNotFoundError`) or not a directory, or still has a child directory or
link; otherwise removes `q` together with its attribute files. -/
def rmdirOp (fs : Fs) (q : FsPath) : Except PyErr Fs :=
  match fs.get q with
  | none => .error .fileNotFound
  | some .dir =>
    if hasLiveChild fs q then .error .other
    else .ok (fs.filter (fun pe => ¬ underPath q pe.1))
  | some _ => .error .other

/-- HID device profile, mirroring `class Device.__init__`.  `path` and
`lastReceivedReport` are the mutable `self.path` / `self._last_received_report`
fields. -/
structure Device where
  descriptor : List Nat
  usage_page : Nat
  usage : Nat
  report_ids : List Nat
  in_report_lengths : List Nat
  out_report_lengths : List Nat
  name : String
  path : Option String := none
  lastReceivedReport : Option (List Nat) := none
  deriving DecidableEq, Repr

/-- `Device.KEYBOARD` (descriptor transcribed from the source). -/
def Device.KEYBOARD : Device :=
  { descriptor :=
      [0x05, 0x01, 0x09, 0x06, 0xA1, 0x01, 0x85, 0x01, 0x05, 0x07,
       0x19, 0xE0, 0x29, 0xE7, 0x15, 0x00, 0x25, 0x01, 0x75, 0x01,
       0x95, 0x08, 0x81, 0x02, 0x95, 0x01, 0x75, 0x08, 0x81, 0x01,
       0x95, 0x03, 0x75, 0x01, 0x05, 0x08, 0x19, 0x01, 0x29, 0x05,
       0x91, 0x02, 0x95, 0x01, 0x75, 0x05, 0x91, 0x01, 0x95, 0x06,
       0x75, 0x08, 0x15, 0x00, 0x26, 0xFF, 0x00, 0x05, 0x07, 0x19, 0x00,
       0x2A, 0xFF, 0x00, 0x81, 0x00, 0xC0]
    usage_page := 0x1
    usage := 0x6
    report_ids := [0x1]
    in_report_lengths := [8]
    out_report_lengths := [1]
    name := "keyboard gadget" }

/-- `Device.CONSUMER_CONTROL` (descriptor transcribed from the source). -/
def Device.CONSUMER_CONTROL : Device :=
  { descriptor :=
      [0x05, 0x0C, 0x09, 0x01, 0xA1, 0x01, 0x85, 0x03, 0x75, 0x10,
       0x95, 0x01, 0x15, 0x01, 0x26, 0x8C, 0x02, 0x19, 0x01,
       0x2A, 0x8C, 0x02, 0x81, 0x00, 0xC0]
    usage_page := 0x0C
    usage := 0x01
    report_ids := [3]
    in_report_lengths := [2]
    out_report_lengths := [0]
    name := "consumer control gadget" }

/-- `Device.BOOT_KEYBOARD` (same layout as the keyboard, without the
report-ID item). -/
def Device.BOOT_KEYBOARD : Device :=
  { descriptor :=
      [0x05, 0x01, 0x09, 0x06, 0xA1, 0x01, 0x05, 0x07,
       0x19, 0xE0, 0x29, 0xE7, 0x15, 0x00, 0x25, 0x01, 0x75, 0x01,
       0x95, 0x08, 0x81, 0x02, 0x95, 0x01, 0x75, 0x08, 0x81, 0x01,
       0x95, 0x03, 0x75, 0x01, 0x05, 0x08, 0x19, 0x01, 0x29, 0x05,
       0x91, 0x02, 0x95, 0x01, 0x75, 0x05, 0x91, 0x01, 0x95, 0x06,
       0x75, 0x08, 0x15, 0x00, 0x26, 0xFF, 0x00, 0x05, 0x07, 0x19, 0x00,
       0x2A, 0xFF, 0x00, 0x81, 0x00, 0xC0]
    usage_page := 0x1
    usage := 0x6
    report_ids := [0x0]
    in_report_lengths := [8]
    out_report_lengths := [1]
    name := "boot keyboard gadget" }

/-- `Device.BOOT_MOUSE`. -/
def Device.BOOT_MOUSE : Device :=
  { descriptor :=
      [0x05, 0x01, 0x09, 0x02, 0xA1, 0x01, 0x09, 0x01, 0xA1, 0x00,
       0x05, 0x09, 0x19, 0x01, 0x29, 0x05, 0x15, 0x00, 0x25, 0x01,
       0x95, 0x05, 0x75, 0x01, 0x81, 0x02, 0x95, 0x01, 0x75, 0x03,
       0x81, 0x01, 0x05, 0x01, 0x09, 0x30, 0x09, 0x31, 0x15, 0x81,
       0x25, 0x7F, 0x75, 0x08, 0x95, 0x02, 0x81, 0x06, 0x09, 0x38,
       0x15, 0x81, 0x25, 0x7F, 0x75, 0x08, 0x95, 0x01, 0x81, 0x06,
       0xC0, 0xC0]
    usage_page := 0x1
    usage := 0x02
    report_ids := [0]
    in_report_lengths := [4]
    out_report_lengths := [0]
    name := "boot mouse gadget" }

/-- `"hid.usb%s" % report_id`: the function node name for a report ID. -/
def funcName (rid : Nat) : String :=
  "hid.usb" ++ toString rid

/-- The function node path `functions/hid.usb<rid>` (relative to root). -/
def funcRoot (rid : Nat) : FsPath :=
  ["functions", funcName rid]

/-- `str.strip()` on the character list. -/
def stripChars (l : List Char) : List Char :=
  ((l.dropWhile Char.isWhitespace).reverse.dropWhile Char.isWhitespace).reverse

/-- `str.split(sep)` for a one-character separator, keeping empty pieces,
mirroring Python `"a:b".split(":") = ["a", "b"]`. -/
def splitCharList (c : Char) (l : List Char) : List (List Char) :=
  match l with
  | [] => [[]]
  | a :: t =>
    let r := splitCharList c t
    if a = c then [] :: r
    else
      match r with
      | [] => [[a]]
      | h :: t' => (a :: h) :: t'

/-- `ids[0]` in Python: `IndexError` on an empty sequence. -/
def pyHead (ids : List Nat) : Except PyErr Nat :=
  match ids with
  | [] => .error .indexError
  | i :: _ => .ok i

/-- Python `report_id or self.report_ids[0]`: `0` and `None` are falsy, so
both fall back to the first declared report ID. -/
def effectiveReportId (report_id : Option Nat) (ids : List Nat) : Except PyErr Nat :=
  match report_id with
  | some n => if n = 0 then pyHead ids else .ok n
  | none => pyHead ids

/-- `int.to_bytes(1, "big")`: one byte, `OverflowError` when it does not fit. -/
def intToBytes1 (n : Nat) : Except PyErr (List Nat) :=
  if n < 256 then .ok [n] else .error .overflow

/-- `Device.get_device_path`: read `<root>/functions/hid.usb<rid>/dev` (a
kernel-provided `major:minor` attribute), strip it, split on `":"`, take
index 1, and return `"/dev/hidg" + minor`. -/
def get_device_path (fs : Fs) (d : Device) (report_id : Option Nat) :
    Except PyErr String := do
  let rid ← effectiveReportId report_id d.report_ids
  match fs.get (funcRoot rid ++ ["dev"]) with
  | some (.tfile content) =>
    match (splitCharList ':' (stripChars content.data)).get? 1 with
    | some m => .ok ("/dev/hidg" ++ String.mk m)
    | none => .error .indexError
  | some _ => .error .other
  | none => .error .fileNotFound

/-- `Device.send_report`: resolve the path, then prefix one report-ID byte
when the effective report ID is positive; returns the device path and the
byte frame handed to `fd.write`. -/
def send_report (fs : Fs) (d : Device) (report : List Nat)
    (report_id : Option Nat) : Except PyErr (String × List Nat) := do
  let rid ← effectiveReportId report_id d.report_ids
  let device_path ← get_device_path fs d (some rid)
  let report ←
    if 0 < rid then do
      let b ← intToBytes1 rid
      pure (b ++ report)
    else pure report
  pure (device_path, report)

/-- The class-level `Device._device_fds` cache: path to file descriptor. -/
abbrev FdCache := List (String × Nat)

/-- Cache lookup (`device_path in self._device_fds` / indexing). -/
def cacheGet (c : FdCache) (p : String) : Option Nat :=
  match c with
  | [] => none
  | (q, fd) :: t => if q = p then some fd else cacheGet t p

/-- Cache insertion (`self._device_fds[device_path] = fd`). -/
def cacheSet (c : FdCache) (p : String) (fd : Nat) : FdCache :=
  match c with
  | [] => [(p, fd)]
  | (q, fd') :: t => if q = p then (p, fd) :: t else (q, fd') :: cacheSet t p fd

/-- `Device._close_fd`: close (errors ignored) and delete the cache entry
for a path; a no-op when the path is not cached. -/
def closeFd (c : FdCache) (p : String) : FdCache :=
  c.filter (fun e => ¬ e.1 = p)

/-- `Device._get_nonblocking_fd`: reuse the cached descriptor, otherwise
`os.open(..., O_RDWR | O_NONBLOCK)` (outcome injected as `openRes`: `.ok fd`
or `.error errno`) and cache the new descriptor. -/
def getNonblockingFd (c : FdCache) (p : String) (openRes : Except Nat Nat) :
    Except Nat (Nat × FdCache) :=
  match cacheGet c p with
  | some fd => .ok (fd, c)
  | none =>
    match openRes with
    | .ok fd => .ok (fd, cacheSet c p fd)
    | .error errno => .error errno

/-- `Device.send_report_nonblocking`.  `openRes` is the `os.open` outcome
(used only on a cache miss); `writeRes` is the `os.write` outcome (`none` =
success, `some errno` = `OSError errno`).  Inside the `try` block an
`OSError` with `errno == 11` is re-raised as `BlockingIOError` without
touching the cache; any other `OSError` evicts the cached descriptor for the
path before propagating.  Returns the cache as left behind plus the result
(the device path and written frame on success). -/
def send_report_nonblocking (fs : Fs) (d : Device) (report : List Nat)
    (report_id : Option Nat) (cache : FdCache) (openRes : Except Nat Nat)
    (writeRes : Option Nat) : FdCache × Except PyErr (String × List Nat) :=
  match effectiveReportId report_id d.report_ids with
  | .error e => (cache, .error e)
  | .ok rid =>
    match get_device_path fs d (some rid) with
    | .error e => (cache, .error e)
    | .ok device_path =>
      match getNonblockingFd cache device_path openRes with
      | .error errno =>
        if errno = 11 then (cache, .error .wouldBlock)
        else (closeFd cache device_path, .error (.osError errno))
      | .ok (_fd, cache) =>
        match (if 0 < rid then (intToBytes1 rid).map (· ++ report)
               else .ok report) with
        | .error e => (cache, .error e)
        | .ok frame =>
          match writeRes with
          | none => (cache, .ok (device_path, frame))
          | some errno =>
            if errno = 11 then (cache, .error .wouldBlock)
            else (closeFd cache device_path, .error (.osError errno))

/-- `Device.get_last_received_report`: resolve the path, open for
non-blocking read of `out_report_lengths[0]` bytes (the read outcome is
injected as `readRes`: `none` = no data available, `some r` = bytes
received); a received report replaces `_last_received_report`, which is
returned either way.  Returns the updated device and the returned value. -/
def get_last_received_report (fs : Fs) (d : Device) (report_id : Option Nat)
    (readRes : Option (List Nat)) : Except PyErr (Device × Option (List Nat)) := do
  let rid ← effectiveReportId report_id d.report_ids
  let _device_path ← get_device_path fs d (some rid)
  let _len ←
    (match d.out_report_lengths with
     | [] => Except.error PyErr.indexError
     | l :: _ => Except.ok l)
  let d :=
    match readRes with
    | some r => { d with lastReceivedReport := some r }
    | none => d
  pure (d, d.lastReceivedReport)

/-- `Device.__del__`: `_close_fd` every key of a snapshot of the cache. -/
def delDevice (cache : FdCache) : FdCache :=
  (cache.map Prod.fst).foldl closeFd cache

/-- Module-level state: `this.boot_device` and `this.devices`. -/
structure ModuleState where
  boot_device : Int
  devices : List Device
  deriving DecidableEq, Repr

/-- `List` version of "starts with", total and kernel-reducible. -/
def listStarts (pre l : List Char) : Bool :=
  match pre, l with
  | [], _ => true
  | _ :: _, [] => false
  | a :: t, b :: u => a = b && listStarts t u

/-- Matcher for `Path(root).glob("configs/**/hid.usb*")`: paths whose first
component is `configs` and whose last component starts with `hid.usb`. -/
def matchConfigsHid (q : FsPath) : Bool :=
  match q with
  | "configs" :: rest =>
    (!rest.isEmpty) &&
      (match q.getLast? with
       | some s => listStarts "hid.usb".data s.data
       | none => false)
  | _ => false

/-- Matcher for `rglob("configs/*/strings/*/*")` (pattern anchored at the
end of the path, `**` absorbing any leading components). -/
def matchCfgStrings3 (q : FsPath) : Bool :=
  match q.reverse with
  | _ :: _ :: "strings" :: _ :: "configs" :: _ => true
  | _ => false

/-- Matcher for `rglob("configs/*/strings/*")`. -/
def matchCfgStrings2 (q : FsPath) : Bool :=
  match q.reverse with
  | _ :: "strings" :: _ :: "configs" :: _ => true
  | _ => false

/-- Matcher for `rglob("configs/*")`. -/
def matchCfgChild (q : FsPath) : Bool :=
  match q.reverse with
  | _ :: "configs" :: _ => true
  | _ => false

/-- Matcher for `rglob("functions/*")`. -/
def matchFuncChild (q : FsPath) : Bool :=
  match q.reverse with
  | _ :: "functions" :: _ => true
  | _ => false

/-- Matcher for `rglob("strings/*/*")`. -/
def matchStrings3 (q : FsPath) : Bool :=
  match q.reverse with
  | _ :: _ :: "strings" :: _ => true
  | _ => false

/-- Matcher for `rglob("strings/*")`. -/
def matchStrings2 (q : FsPath) : Bool :=
  match q.reverse with
  | _ :: "strings" :: _ => true
  | _ => false

/-- `Path.unlink`: remove the matched entry; a directory cannot be
unlinked. -/
def unlinkOp (fs : Fs) (q : FsPath) : Except PyErr Fs :=
  match fs.get q with
  | none => .error .fileNotFound
  | some .dir => .error .other
  | some _ => .ok (fs.eraseKey q)

/-- One `for x in glob(...): x.unlink()` loop over a snapshot of the
matching paths. -/
def unlinkPass (fs : Fs) (pat : FsPath → Bool) : Except PyErr Fs :=
  (fs.map Prod.fst).foldlM
    (fun cur q => if pat q then unlinkOp cur q else pure cur) fs

/-- One `for x in rglob(...): if x.is_dir(): x.rmdir()` loop: the glob
snapshot is taken up front, `is_dir` is evaluated against the current
store. -/
def rmdirPass (fs : Fs) (pat : FsPath → Bool) : Except PyErr Fs :=
  (fs.map Prod.fst).foldlM
    (fun cur q =>
      if pat q ∧ cur.get q = some .dir then rmdirOp cur q else pure cur) fs

/-- `usb_hid.disable()`: blank the UDC binding (a missing gadget root is
ignored), unlink the configuration-to-function links, remove string,
configuration and function directories in dependency order, remove the
gadget root (ignored when already absent), and reset `this.devices`. -/
def disable (st : ModuleState) (fs : Fs) : Except PyErr (ModuleState × Fs) := do
  let fs ←
    match writeText fs ["UDC"] "" with
    | .ok fs' => Except.ok fs'
    | .error .fileNotFound => Except.ok fs
    | .error e => Except.error e
  let fs ← unlinkPass fs matchConfigsHid
  let fs ← rmdirPass fs matchCfgStrings3
  let fs ← rmdirPass fs matchCfgStrings2
  let fs ← rmdirPass fs matchCfgChild
  let fs ← rmdirPass fs matchFuncChild
  let fs ← rmdirPass fs matchStrings3
  let fs ← rmdirPass fs matchStrings2
  let fs ←
    match rmdirOp fs [] with
    | .ok fs' => Except.ok fs'
    | .error .fileNotFound => Except.ok fs
    | .error e => Except.error e
  pure ({ st with devices := [] }, fs)

/-- Lines 741-776 of `enable`: gadget-level attributes and strings. -/
def headerBuild (fs : Fs) : Except PyErr Fs := do
  let fs ← mkdirP fs ["functions"]
  let fs ← mkdirP fs ["configs"]
  let fs ← writeText fs ["bcdDevice"] "1"
  let fs ← writeText fs ["bcdUSB"] "512"
  let fs ← writeText fs ["bDeviceClass"] "0"
  let fs ← writeText fs ["bDeviceProtocol"] "0"
  let fs ← writeText fs ["bDeviceSubClass"] "0"
  let fs ← writeText fs ["bMaxPacketSize0"] "8"
  let fs ← writeText fs ["idProduct"] "260"
  let fs ← writeText fs ["idVendor"] "7531"
  let fs ← mkdirP fs ["strings", "0x409"]
  let fs ← writeText fs ["strings", "0x409", "serialnumber"] "213374badcafe"
  let fs ← writeText fs ["strings", "0x409", "manufacturer"] "quaxalber"
  let fs ← writeText fs ["strings", "0x409", "product"] "USB Combo Device"
  pure fs

/-- The per-device configuration-node block at the top of the device loop
(`configs/c.1` and its strings/power attributes; contents are constant). -/
def configBuild (fs : Fs) : Except PyErr Fs := do
  let fs ← mkdirP fs ["configs", "c.1"]
  let fs ← mkdirP fs ["configs", "c.1", "strings", "0x409"]
  let fs ← writeText fs ["configs", "c.1", "strings", "0x409", "configuration"]
      "Config 1: ECM network"
  let fs ← writeText fs ["configs", "c.1", "MaxPower"] "250"
  let fs ← writeText fs ["configs", "c.1", "bmAttributes"] "128"
  pure fs

/-- One iteration of the inner report-ID loop: create the function node
(`continue` on `FileExistsError`, skipping attributes and link), write
protocol / report_length / subclass / report_desc, and link it into the
configuration (`FileNotFoundError` is passed over; any other error, such as
an already-existing link, propagates). -/
def functionBuild (fs : Fs) (d : Device) (report_index report_id : Nat) :
    Except PyErr Fs :=
  match mkdirStrict fs (funcRoot report_id) with
  | .error .fileExists => .ok fs
  | .error e => .error e
  | .ok fs => do
    let fs ← writeText fs (funcRoot report_id ++ ["protocol"]) (toString report_id)
    let inLen ←
      (match d.in_report_lengths.get? report_index with
       | some l => Except.ok l
       | none => Except.error PyErr.indexError)
    let fs ← writeText fs (funcRoot report_id ++ ["report_length"]) (toString inLen)
    let fs ← writeText fs (funcRoot report_id ++ ["subclass"]) "1"
    let fs ← writeBytes fs (funcRoot report_id ++ ["report_desc"]) d.descriptor
    match symlinkTo fs ["configs", "c.1", funcName report_id] (funcRoot report_id) with
    | .ok fs => pure fs
    | .error .fileNotFound => pure fs
    | .error e => .error e

/-- `for report_index, report_id in enumerate(device.report_ids)`. -/
def functionsBuild (fs : Fs) (d : Device) : Except PyErr Fs :=
  d.report_ids.enum.foldlM (fun cur p => functionBuild cur d p.1 p.2) fs

/-- One iteration of the device loop: configuration block, the
`this.devices.append(device)`, then the function nodes. -/
def deviceBuild (st : ModuleState) (fs : Fs) (d : Device) :
    Except PyErr (ModuleState × Fs) := do
  let fs ← configBuild fs
  let st := { st with devices := st.devices ++ [d] }
  let fs ← functionsBuild fs d
  pure (st, fs)

/-- `for device in requested_devices: ...` (the build loop). -/
def buildLoop (st : ModuleState) (fs : Fs) (ds : List Device) :
    Except PyErr (ModuleState × Fs) :=
  ds.foldlM (fun acc d => deviceBuild acc.1 acc.2 d) (st, fs)

/-- `udc = next(Path("/sys/class/udc/").glob("*"))` followed by writing the
controller name to `UDC`; an empty controller listing raises
`StopIteration`. -/
def bindUdc (fs : Fs) (udcs : List String) : Except PyErr Fs :=
  match udcs with
  | [] => .error .stopIteration
  | u :: _ => writeText fs ["UDC"] u

/-- The final loop `device.path = device.get_device_path()`. -/
def resolvePaths (fs : Fs) (ds : List Device) : Except PyErr (List Device) :=
  ds.mapM (fun d => do
    let p ← get_device_path fs d none
    pure { d with path := some p })

/-- Successful result of `enable`: the module state, the filesystem tree and
the caller's device list (whose `path` fields were mutated in place). -/
structure EnableOk where
  st : ModuleState
  fs : Fs
  requested : List Device
  deriving DecidableEq, Repr

/-- The two boot-device overrides
(`if boot_device == 1: requested_devices = [Device.BOOT_KEYBOARD]` and
`if boot_device == 2: requested_devices = [Device.BOOT_MOUSE]`), applied in
source order. -/
def overrideDevices (requested_devices : List Device) (boot_device : Int) :
    List Device :=
  let requested :=
    if boot_device = 1 then [Device.BOOT_KEYBOARD] else requested_devices
  if boot_device = 2 then [Device.BOOT_MOUSE] else requested

/-- `usb_hid.enable(requested_devices, boot_device)`.  Sets
`this.boot_device`; an empty request list disables and returns; `boot_device
== 1` / `== 2` replace the request list with the single boot keyboard / boot
mouse; then gadget attributes, configuration, function nodes and links are
built, the first controller is bound, and each device's transport path is
resolved.  The `this.devices.append(device)` calls append the very objects
whose `path` the final loop mutates, so on success the appended batch is the
path-updated devices. -/
def enable (st0 : ModuleState) (fs : Fs) (udcs : List String)
    (requested_devices : List Device) (boot_device : Int) :
    Except PyErr EnableOk :=
  let st := { st0 with boot_device := boot_device }
  if requested_devices.length = 0 then
    match disable st fs with
    | .ok (st', fs') => .ok ⟨st', fs', requested_devices⟩
    | .error e => .error e
  else
    let requested := overrideDevices requested_devices boot_device
    (do
      let fs ← headerBuild fs
      let (st', fs) ← buildLoop st fs requested
      let fs ← bindUdc fs udcs
      let updated ← resolvePaths fs requested
      pure ⟨{ st' with devices := st.devices ++ updated }, fs, updated⟩)

/-- The whole-process state: module state, gadget filesystem, and the
class-level file-descriptor cache `Device._device_fds`. -/
structure ProcState where
  st : ModuleState
  fs : Fs
  fdCache : FdCache
  deriving DecidableEq, Repr

/-- `usb_hid.disable()` as seen by the whole process: the function touches
only the gadget tree and `this.devices`; it contains no operation on
`Device._device_fds`, so the cache passes through unchanged. -/
def disableProc (p : ProcState) : Except PyErr ProcState :=
  match disable p.st p.fs with
  | .ok (st', fs') => .ok ⟨st', fs', p.fdCache⟩
  | .error e => .error e

/-! Basic lemmas about the embedding. -/

@[simp]
lemma pureE {α : Type} (a : α) : (pure a : Except PyErr α) = .ok a := rfl

@[simp]
lemma ok_bind {α β : Type} (a : α) (f : α → Except PyErr β) :
    (Except.ok a >>= f) = f a := rfl

@[simp]
lemma error_bind {α β : Type} (e : PyErr) (f : α → Except PyErr β) :
    ((Except.error e : Except PyErr α) >>= f) = .error e := rfl

lemma bindE_ok {α β : Type} {x : Except PyErr α} {f : α → Except PyErr β} {b : β}
    (h : x >>= f = .ok b) : ∃ a, x = .ok a ∧ f a = .ok b := by
  cases x with
  | ok a => exact ⟨a, rfl, h⟩
  | error e => simp at h

lemma Fs.get_set (fs : Fs) (p : FsPath) (e : Entry) (q : FsPath) :
    (fs.set p e).get q = if q = p then some e else fs.get q := by
  induction fs with
  | nil =>
    simp only [Fs.set, Fs.get]
    by_cases h : q = p
    · rw [if_pos h.symm, if_pos h]
    · rw [if_neg (fun hc => h hc.symm), if_neg h]
  | cons pe t ih =>
    obtain ⟨k, e'⟩ := pe
    simp only [Fs.set]
    by_cases hk : k = p
    · subst hk
      simp only [if_pos rfl, Fs.get]
      by_cases hq : k = q
      · rw [if_pos hq, if_pos hq.symm]
      · rw [if_neg hq, if_neg (fun hc => hq hc.symm), if_neg hq]
    · simp only [if_neg hk, Fs.get, ih]
      by_cases hq : k = q
      · have hqp : ¬ q = p := fun hc => hk (hq.trans hc)
        rw [if_pos hq, if_neg hqp, if_pos hq]
      · rw [if_neg hq, if_neg hq]

lemma Fs.set_self {fs : Fs} {p : FsPath} {e : Entry} (h : fs.get p = some e) :
    fs.set p e = fs := by
  induction fs with
  | nil => simp [Fs.get] at h
  | cons pe t ih =>
    obtain ⟨k, e'⟩ := pe
    by_cases h1 : k = p
    · subst h1
      have h' : e' = e := by simpa [Fs.get] using h
      subst h'
      simp [Fs.set]
    · simp only [Fs.get, if_neg h1] at h
      simp [Fs.set, h1, ih h]

lemma ensureDir_get (fs : Fs) (q r : FsPath) :
    (ensureDir fs q).get r =
      if r = q ∧ fs.get q = none then some .dir else fs.get r := by
  unfold ensureDir
  by_cases hn : (fs.get q).isNone
  · rw [if_pos hn, Fs.get_set]
    rw [Option.isNone_iff_eq_none] at hn
    by_cases hr : r = q <;> simp [hr, hn]
  · rw [if_neg hn]
    rw [Option.isNone_iff_eq_none] at hn
    by_cases hr : r = q <;> simp [hr, hn]

lemma insertTreeAux_get (rest : List String) (fs : Fs) (done q : FsPath) :
    (insertTreeAux fs done rest).get q =
      if (∃ i, i ≤ rest.length ∧ q = done ++ rest.take i) ∧ fs.get q = none
      then some .dir else fs.get q := by
  induction rest generalizing fs done with
  | nil =>
    simp only [insertTreeAux, ensureDir_get, List.length_nil, List.take_nil,
      List.append_nil]
    by_cases hq : q = done
    · subst hq
      by_cases hn : fs.get q = none <;> simp [hn]
    · have hne : ¬ ∃ i, i ≤ 0 ∧ q = done := by
        rintro ⟨i, _, h⟩; exact hq h
      simp [hq, hne]
  | cons c t ih =>
    simp only [insertTreeAux]
    rw [ih]
    by_cases hq : q = done
    · subst hq
      have h1 : ¬ ∃ j, j ≤ t.length ∧ q = (q ++ [c]) ++ t.take j := by
        rintro ⟨j, _, hj⟩
        have := congrArg List.length hj
        simp at this
      have h2 : ∃ i, i ≤ (c :: t).length ∧ q = q ++ (c :: t).take i :=
        ⟨0, by simp, by simp⟩
      rw [if_neg (fun hc => h1 hc.1)]
      by_cases hn : fs.get q = none <;> simp [ensureDir_get, hn, h2]
    · have hens : (ensureDir fs done).get q = fs.get q := by
        rw [ensureDir_get]; simp [hq]
      rw [hens]
      have hiff : (∃ j, j ≤ t.length ∧ q = (done ++ [c]) ++ t.take j) ↔
          (∃ i, i ≤ (c :: t).length ∧ q = done ++ (c :: t).take i) := by
        constructor
        · rintro ⟨j, hj, rfl⟩
          exact ⟨j + 1, by simpa using hj, by simp [List.append_assoc]⟩
        · rintro ⟨i, hi, hq2⟩
          cases i with
          | zero => exact absurd (by simpa using hq2) hq
          | succ j =>
            exact ⟨j, by simpa using hi, by simpa [List.append_assoc] using hq2⟩
      simp only [hiff]


lemma insertTree_get (fs : Fs) (p q : FsPath) :
    (insertTree fs p).get q =
      if (∃ i, i ≤ p.length ∧ q = p.take i) ∧ fs.get q = none
      then some .dir else fs.get q := by
  simpa using insertTreeAux_get p fs [] q

lemma insertTree_pres {fs : Fs} {p q : FsPath} {e : Entry}
    (h : fs.get q = some e) : (insertTree fs p).get q = some e := by
  rw [insertTree_get]
  simp [h]

lemma insertTree_self {fs : Fs} {p : FsPath} (h : fs.get p = none) :
    (insertTree fs p).get p = some .dir := by
  rw [insertTree_get]
  exact if_pos ⟨⟨p.length, le_rfl, (List.take_length _).symm⟩, h⟩

lemma mkdirP_id {fs : Fs} {p : FsPath} (h : fs.get p = some .dir) :
    mkdirP fs p = .ok fs := by
  unfold mkdirP
  rw [h]

lemma mkdirP_ok_cases {fs fs' : Fs} {p : FsPath} (h : mkdirP fs p = .ok fs') :
    (fs.get p = some .dir ∧ fs' = fs) ∨ (fs.get p = none ∧ fs' = insertTree fs p) := by
  unfold mkdirP at h
  cases hget : fs.get p with
  | none =>
    rw [hget] at h
    simp at h
    exact Or.inr ⟨rfl, h.symm⟩
  | some e' =>
    cases e' <;> rw [hget] at h <;> simp at h
    exact Or.inl ⟨rfl, h.symm⟩

lemma mkdirP_pres {fs fs' : Fs} {p : FsPath} (h : mkdirP fs p = .ok fs')
    {q : FsPath} {e : Entry} (hq : fs.get q = some e) : fs'.get q = some e := by
  rcases mkdirP_ok_cases h with ⟨_, rfl⟩ | ⟨_, rfl⟩
  · exact hq
  · exact insertTree_pres hq

lemma mkdirP_ok_self {fs fs' : Fs} {p : FsPath} (h : mkdirP fs p = .ok fs') :
    fs'.get p = some .dir := by
  rcases mkdirP_ok_cases h with ⟨h1, rfl⟩ | ⟨h1, rfl⟩
  · exact h1
  · exact insertTree_self h1

lemma mkdirStrict_of_some {fs : Fs} {p : FsPath} {e : Entry}
    (h : fs.get p = some e) : mkdirStrict fs p = .error .fileExists := by
  unfold mkdirStrict
  rw [h]

lemma mkdirStrict_ok {fs fs' : Fs} {p : FsPath} (h : mkdirStrict fs p = .ok fs') :
    fs.get p = none ∧ fs' = insertTree fs p := by
  unfold mkdirStrict at h
  cases hget : fs.get p with
  | none =>
    rw [hget] at h
    simp at h
    exact ⟨rfl, h.symm⟩
  | some e' => rw [hget] at h; simp at h

lemma writeText_ok {fs fs' : Fs} {p : FsPath} {c : String}
    (h : writeText fs p c = .ok fs') :
    fs.get p.dropLast = some .dir ∧ fs' = fs.set p (.tfile c) := by
  unfold writeText at h
  cases hget : fs.get p.dropLast with
  | none => rw [hget] at h; simp at h
  | some e' =>
    cases e' <;> rw [hget] at h <;> simp at h
    exact ⟨rfl, h.symm⟩

lemma writeText_id {fs : Fs} {p : FsPath} {c : String}
    (h1 : fs.get p.dropLast = some .dir) (h2 : fs.get p = some (.tfile c)) :
    writeText fs p c = .ok fs := by
  unfold writeText
  rw [h1, Fs.set_self h2]

lemma writeBytes_ok {fs fs' : Fs} {p : FsPath} {b : List Nat}
    (h : writeBytes fs p b = .ok fs') :
    fs.get p.dropLast = some .dir ∧ fs' = fs.set p (.bfile b) := by
  unfold writeBytes at h
  cases hget : fs.get p.dropLast with
  | none => rw [hget] at h; simp at h
  | some e' =>
    cases e' <;> rw [hget] at h <;> simp at h
    exact ⟨rfl, h.symm⟩

lemma writeBytes_id {fs : Fs} {p : FsPath} {b : List Nat}
    (h1 : fs.get p.dropLast = some .dir) (h2 : fs.get p = some (.bfile b)) :
    writeBytes fs p b = .ok fs := by
  unfold writeBytes
  rw [h1, Fs.set_self h2]

/-- `fs'` keeps every entry of `fs` exactly, except possibly at the paths in
`ws`.  All build operations satisfy this for the paths they write. -/
def PresExcept (fs fs' : Fs) (ws : List FsPath) : Prop :=
  ∀ q e, q ∉ ws → fs.get q = some e → fs'.get q = some e

lemma presExcept_refl (fs : Fs) (ws : List FsPath) : PresExcept fs fs ws :=
  fun _ _ _ h => h

lemma presExcept_of (fs fs' : Fs) {w1 : List FsPath} (w2 : List FsPath)
    (h : PresExcept fs fs' w1) (hsub : ∀ q, q ∈ w1 → q ∈ w2) :
    PresExcept fs fs' w2 :=
  fun q e hq hg => h q e (fun hin => hq (hsub q hin)) hg

lemma presExcept_trans {fs f' f'' : Fs} {w1 w2 : List FsPath}
    (h1 : PresExcept fs f' w1) (h2 : PresExcept f' f'' w2) :
    PresExcept fs f'' (w1 ++ w2) := by
  intro q e hq hg
  rw [List.mem_append] at hq
  push_neg at hq
  exact h2 q e hq.2 (h1 q e hq.1 hg)

lemma presExcept_set (fs : Fs) (p : FsPath) (e : Entry) :
    PresExcept fs (fs.set p e) [p] := by
  intro q e' hq hg
  rw [Fs.get_set, if_neg (by simpa using hq)]
  exact hg

lemma presExcept_insertTree (fs : Fs) (p : FsPath) (ws : List FsPath) :
    PresExcept fs (insertTree fs p) ws :=
  fun _ _ _ hg => insertTree_pres hg

lemma presExcept_mkdirP {fs fs' : Fs} {p : FsPath} (h : mkdirP fs p = .ok fs')
    (ws : List FsPath) : PresExcept fs fs' ws :=
  fun _ _ _ hg => mkdirP_pres h hg

lemma stringData_append (a b : String) : (a ++ b).data = a.data ++ b.data := by
  cases a; cases b; rfl

lemma funcName_ne_MaxPower (rid : Nat) : funcName rid ≠ "MaxPower" := by
  intro h
  have h2 := congrArg (fun s => s.data.head?) h
  simp only [funcName, stringData_append] at h2
  simp at h2

lemma funcName_ne_bmAttributes (rid : Nat) : funcName rid ≠ "bmAttributes" := by
  intro h
  have h2 := congrArg (fun s => s.data.head?) h
  simp only [funcName, stringData_append] at h2
  simp at h2

/-- The gadget-level entries that `headerBuild` (lines 741-776) leaves in
place, as found again by a second run of `enable`. -/
structure HeaderFacts (fs : Fs) : Prop where
  root : fs.get [] = some .dir
  funcs : fs.get ["functions"] = some .dir
  cfgs : fs.get ["configs"] = some .dir
  strs : fs.get ["strings", "0x409"] = some .dir
  bcdDevice : fs.get ["bcdDevice"] = some (.tfile "1")
  bcdUSB : fs.get ["bcdUSB"] = some (.tfile "512")
  bDeviceClass : fs.get ["bDeviceClass"] = some (.tfile "0")
  bDeviceProtocol : fs.get ["bDeviceProtocol"] = some (.tfile "0")
  bDeviceSubClass : fs.get ["bDeviceSubClass"] = some (.tfile "0")
  bMaxPacketSize0 : fs.get ["bMaxPacketSize0"] = some (.tfile "8")
  idProduct : fs.get ["idProduct"] = some (.tfile "260")
  idVendor : fs.get ["idVendor"] = some (.tfile "7531")
  serial : fs.get ["strings", "0x409", "serialnumber"] = some (.tfile "213374badcafe")
  manuf : fs.get ["strings", "0x409", "manufacturer"] = some (.tfile "quaxalber")
  product : fs.get ["strings", "0x409", "product"] = some (.tfile "USB Combo Device")

/-- The configuration-node entries written by every device-loop iteration. -/
structure ConfigFacts (fs : Fs) : Prop where
  c1 : fs.get ["configs", "c.1"] = some .dir
  c1s : fs.get ["configs", "c.1", "strings", "0x409"] = some .dir
  conf : fs.get ["configs", "c.1", "strings", "0x409", "configuration"] =
    some (.tfile "Config 1: ECM network")
  maxPower : fs.get ["configs", "c.1", "MaxPower"] = some (.tfile "250")
  bmAttrs : fs.get ["configs", "c.1", "bmAttributes"] = some (.tfile "128")

lemma headerBuild_ok {fs fs' : Fs} (h : headerBuild fs = .ok fs') :
    HeaderFacts fs' := by
  unfold headerBuild at h
  obtain ⟨f1, h1, h⟩ := bindE_ok h
  obtain ⟨f2, h2, h⟩ := bindE_ok h
  obtain ⟨f3, h3, h⟩ := bindE_ok h
  obtain ⟨f4, h4, h⟩ := bindE_ok h
  obtain ⟨f5, h5, h⟩ := bindE_ok h
  obtain ⟨f6, h6, h⟩ := bindE_ok h
  obtain ⟨f7, h7, h⟩ := bindE_ok h
  obtain ⟨f8, h8, h⟩ := bindE_ok h
  obtain ⟨f9, h9, h⟩ := bindE_ok h
  obtain ⟨f10, h10, h⟩ := bindE_ok h
  obtain ⟨f11, h11, h⟩ := bindE_ok h
  obtain ⟨f12, h12, h⟩ := bindE_ok h
  obtain ⟨f13, h13, h⟩ := bindE_ok h
  obtain ⟨f14, h14, h⟩ := bindE_ok h
  have hfin : fs' = f14 := by simpa using h.symm
  subst hfin
  obtain ⟨hp3, he3⟩ := writeText_ok h3
  obtain ⟨hp4, he4⟩ := writeText_ok h4
  obtain ⟨hp5, he5⟩ := writeText_ok h5
  obtain ⟨hp6, he6⟩ := writeText_ok h6
  obtain ⟨hp7, he7⟩ := writeText_ok h7
  obtain ⟨hp8, he8⟩ := writeText_ok h8
  obtain ⟨hp9, he9⟩ := writeText_ok h9
  obtain ⟨hp10, he10⟩ := writeText_ok h10
  obtain ⟨hp12, he12⟩ := writeText_ok h12
  obtain ⟨hp13, he13⟩ := writeText_ok h13
  obtain ⟨hp14, he14⟩ := writeText_ok h14
  have q14 : PresExcept f13 fs' [["strings", "0x409", "product"]] := by
    rw [he14]; exact presExcept_set _ _ _
  have s13 : PresExcept f12 f13 [["strings", "0x409", "manufacturer"]] := by
    rw [he13]; exact presExcept_set _ _ _
  have q13 := presExcept_trans s13 q14
  have s12 : PresExcept f11 f12 [["strings", "0x409", "serialnumber"]] := by
    rw [he12]; exact presExcept_set _ _ _
  have q12 := presExcept_trans s12 q13
  have q11 := presExcept_trans (presExcept_mkdirP h11 ([] : List FsPath)) q12
  have s10 : PresExcept f9 f10 [["idVendor"]] := by
    rw [he10]; exact presExcept_set _ _ _
  have q10 := presExcept_trans s10 q11
  have s9 : PresExcept f8 f9 [["idProduct"]] := by
    rw [he9]; exact presExcept_set _ _ _
  have q9 := presExcept_trans s9 q10
  have s8 : PresExcept f7 f8 [["bMaxPacketSize0"]] := by
    rw [he8]; exact presExcept_set _ _ _
  have q8 := presExcept_trans s8 q9
  have s7 : PresExcept f6 f7 [["bDeviceSubClass"]] := by
    rw [he7]; exact presExcept_set _ _ _
  have q7 := presExcept_trans s7 q8
  have s6 : PresExcept f5 f6 [["bDeviceProtocol"]] := by
    rw [he6]; exact presExcept_set _ _ _
  have q6 := presExcept_trans s6 q7
  have s5 : PresExcept f4 f5 [["bDeviceClass"]] := by
    rw [he5]; exact presExcept_set _ _ _
  have q5 := presExcept_trans s5 q6
  have s4 : PresExcept f3 f4 [["bcdUSB"]] := by
    rw [he4]; exact presExcept_set _ _ _
  have q4 := presExcept_trans s4 q5
  have s3 : PresExcept f2 f3 [["bcdDevice"]] := by
    rw [he3]; exact presExcept_set _ _ _
  have q3 := presExcept_trans s3 q4
  have q2 := presExcept_trans (presExcept_mkdirP h2 ([] : List FsPath)) q3
  refine ⟨?_, ?_, ?_, ?_, ?_, ?_, ?_, ?_, ?_, ?_, ?_, ?_, ?_, ?_, ?_⟩
  · exact q3 [] .dir (by decide) hp3
  · exact q2 ["functions"] .dir (by decide) (mkdirP_ok_self h1)
  · exact q3 ["configs"] .dir (by decide) (mkdirP_ok_self h2)
  · exact q12 ["strings", "0x409"] .dir (by decide) (mkdirP_ok_self h11)
  · refine q4 ["bcdDevice"] _ (by decide) ?_
    rw [he3, Fs.get_set]; simp
  · refine q5 ["bcdUSB"] _ (by decide) ?_
    rw [he4, Fs.get_set]; simp
  · refine q6 ["bDeviceClass"] _ (by decide) ?_
    rw [he5, Fs.get_set]; simp
  · refine q7 ["bDeviceProtocol"] _ (by decide) ?_
    rw [he6, Fs.get_set]; simp
  · refine q8 ["bDeviceSubClass"] _ (by decide) ?_
    rw [he7, Fs.get_set]; simp
  · refine q9 ["bMaxPacketSize0"] _ (by decide) ?_
    rw [he8, Fs.get_set]; simp
  · refine q10 ["idProduct"] _ (by decide) ?_
    rw [he9, Fs.get_set]; simp
  · refine q11 ["idVendor"] _ (by decide) ?_
    rw [he10, Fs.get_set]; simp
  · refine q13 ["strings", "0x409", "serialnumber"] _ (by decide) ?_
    rw [he12, Fs.get_set]; simp
  · refine q14 ["strings", "0x409", "manufacturer"] _ (by decide) ?_
    rw [he13, Fs.get_set]; simp
  · rw [he14, Fs.get_set]; simp

lemma headerBuild_id {fs : Fs} (h : HeaderFacts fs) : headerBuild fs = .ok fs := by
  unfold headerBuild
  simp only [mkdirP_id h.funcs, mkdirP_id h.cfgs, mkdirP_id h.strs,
    writeText_id h.root h.bcdDevice, writeText_id h.root h.bcdUSB,
    writeText_id h.root h.bDeviceClass, writeText_id h.root h.bDeviceProtocol,
    writeText_id h.root h.bDeviceSubClass, writeText_id h.root h.bMaxPacketSize0,
    writeText_id h.root h.idProduct, writeText_id h.root h.idVendor,
    writeText_id h.strs h.serial, writeText_id h.strs h.manuf,
    writeText_id h.strs h.product, ok_bind, pureE]

lemma get_set_ne {fs : Fs} {p : FsPath} {e' : Entry} {q : FsPath} (hne : q ≠ p) :
    (fs.set p e').get q = fs.get q := by
  rw [Fs.get_set, if_neg hne]

lemma configBuild_ok {fs fs' : Fs} (h : configBuild fs = .ok fs') :
    ConfigFacts fs' ∧
      PresExcept fs fs'
        [["configs", "c.1", "strings", "0x409", "configuration"],
         ["configs", "c.1", "MaxPower"], ["configs", "c.1", "bmAttributes"]] := by
  unfold configBuild at h
  obtain ⟨f1, h1, h⟩ := bindE_ok h
  obtain ⟨f2, h2, h⟩ := bindE_ok h
  obtain ⟨f3, h3, h⟩ := bindE_ok h
  obtain ⟨f4, h4, h⟩ := bindE_ok h
  obtain ⟨f5, h5, h⟩ := bindE_ok h
  have hfin : fs' = f5 := by simpa using h.symm
  subst hfin
  obtain ⟨hp3, he3⟩ := writeText_ok h3
  obtain ⟨hp4, he4⟩ := writeText_ok h4
  obtain ⟨hp5, he5⟩ := writeText_ok h5
  have q5 : PresExcept f4 fs' [["configs", "c.1", "bmAttributes"]] := by
    rw [he5]; exact presExcept_set _ _ _
  have s4 : PresExcept f3 f4 [["configs", "c.1", "MaxPower"]] := by
    rw [he4]; exact presExcept_set _ _ _
  have q4 := presExcept_trans s4 q5
  have s3 : PresExcept f2 f3
      [["configs", "c.1", "strings", "0x409", "configuration"]] := by
    rw [he3]; exact presExcept_set _ _ _
  have q3 := presExcept_trans s3 q4
  have q2 := presExcept_trans (presExcept_mkdirP h2 ([] : List FsPath)) q3
  have q1 := presExcept_trans (presExcept_mkdirP h1 ([] : List FsPath)) q2
  refine ⟨⟨?_, ?_, ?_, ?_, ?_⟩, ?_⟩
  · exact q2 ["configs", "c.1"] .dir (by decide) (mkdirP_ok_self h1)
  · exact q3 ["configs", "c.1", "strings", "0x409"] .dir (by decide)
      (mkdirP_ok_self h2)
  · refine q4 ["configs", "c.1", "strings", "0x409", "configuration"] _
      (by decide) ?_
    rw [he3, Fs.get_set]; simp
  · refine q5 ["configs", "c.1", "MaxPower"] _ (by decide) ?_
    rw [he4, Fs.get_set]; simp
  · rw [he5, Fs.get_set]; simp
  · intro q e hq hg
    refine q1 q e ?_ hg
    simpa using hq

lemma configBuild_id {fs : Fs} (h : ConfigFacts fs) : configBuild fs = .ok fs := by
  unfold configBuild
  simp only [mkdirP_id h.c1, mkdirP_id h.c1s, writeText_id h.c1s h.conf,
    writeText_id h.c1 h.maxPower, writeText_id h.c1 h.bmAttrs, ok_bind, pureE]

lemma functionBuild_skip {fs : Fs} {d : Device} {ri rid : Nat} {e : Entry}
    (h : fs.get (funcRoot rid) = some e) :
    functionBuild fs d ri rid = .ok fs := by
  unfold functionBuild
  rw [mkdirStrict_of_some h]

lemma get_set_isSome {fs : Fs} {p : FsPath} {e : Entry} {q : FsPath}
    (h : (fs.get q).isSome) : ((fs.set p e).get q).isSome := by
  rw [Fs.get_set]
  split
  · simp
  · exact h

lemma insertTree_isSome {fs : Fs} {p q : FsPath} (h : (fs.get q).isSome) :
    ((insertTree fs p).get q).isSome := by
  obtain ⟨e, he⟩ := Option.isSome_iff_exists.mp h
  rw [insertTree_pres he]
  simp

lemma mkdirStrict_err_isSome {fs : Fs} {p : FsPath} {e : PyErr}
    (h : mkdirStrict fs p = .error e) : (fs.get p).isSome := by
  unfold mkdirStrict at h
  cases hg : fs.get p with
  | none => rw [hg] at h; simp at h
  | some e' => simp

lemma symlinkTo_ok {fs fs' : Fs} {dst tgt : FsPath}
    (h : symlinkTo fs dst tgt = .ok fs') :
    fs.get dst = none ∧ fs' = fs.set dst (.link tgt) := by
  unfold symlinkTo at h
  cases hg : fs.get dst with
  | some e' => rw [hg] at h; simp at h
  | none =>
    rw [hg] at h
    cases hp : fs.get dst.dropLast with
    | none => rw [hp] at h; simp at h
    | some e' =>
      cases e' <;> rw [hp] at h <;> simp at h
      exact ⟨rfl, h.symm⟩

/-- Full characterization of a successful `functionBuild` iteration: either
the function node pre-existed and everything was skipped, or the node, its
four attributes and (when the configuration directory is present) the
configuration link were created. -/
lemma functionBuild_ok_cases {fs fs' : Fs} {d : Device} {ri rid : Nat}
    (h : functionBuild fs d ri rid = .ok fs') :
    (fs' = fs ∧ (fs.get (funcRoot rid)).isSome) ∨
    ∃ len f5,
      d.in_report_lengths.get? ri = some len ∧
      fs.get (funcRoot rid) = none ∧
      f5 = ((((insertTree fs (funcRoot rid)).set
              (funcRoot rid ++ ["protocol"]) (.tfile (toString rid))).set
              (funcRoot rid ++ ["report_length"]) (.tfile (toString len))).set
              (funcRoot rid ++ ["subclass"]) (.tfile "1")).set
              (funcRoot rid ++ ["report_desc"]) (.bfile d.descriptor) ∧
      (fs' = f5 ∨
        fs' = f5.set ["configs", "c.1", funcName rid] (.link (funcRoot rid))) := by
  unfold functionBuild at h
  cases hm : mkdirStrict fs (funcRoot rid) with
  | error e =>
    rw [hm] at h
    have hs := mkdirStrict_err_isSome hm
    cases e <;> simp at h
    exact Or.inl ⟨h.symm, hs⟩
  | ok f1 =>
    rw [hm] at h
    obtain ⟨hget, hf1⟩ := mkdirStrict_ok hm
    obtain ⟨f2, h2, h⟩ := bindE_ok h
    obtain ⟨len, hlen, h⟩ := bindE_ok h
    obtain ⟨f3, h3, h⟩ := bindE_ok h
    obtain ⟨f4, h4, h⟩ := bindE_ok h
    obtain ⟨f5, h5, h⟩ := bindE_ok h
    have hlen' : d.in_report_lengths.get? ri = some len := by
      cases hg : d.in_report_lengths.get? ri with
      | none => rw [hg] at hlen; simp at hlen
      | some l => rw [hg] at hlen; simpa using hlen
    obtain ⟨_, he2⟩ := writeText_ok h2
    obtain ⟨_, he3⟩ := writeText_ok h3
    obtain ⟨_, he4⟩ := writeText_ok h4
    obtain ⟨_, he5⟩ := writeBytes_ok h5
    have hf5 : f5 = ((((insertTree fs (funcRoot rid)).set
        (funcRoot rid ++ ["protocol"]) (.tfile (toString rid))).set
        (funcRoot rid ++ ["report_length"]) (.tfile (toString len))).set
        (funcRoot rid ++ ["subclass"]) (.tfile "1")).set
        (funcRoot rid ++ ["report_desc"]) (.bfile d.descriptor) := by
      rw [he5, he4, he3, he2, hf1]
    cases hs : symlinkTo f5 ["configs", "c.1", funcName rid] (funcRoot rid) with
    | ok f6 =>
      rw [hs] at h
      simp at h
      obtain ⟨_, he6⟩ := symlinkTo_ok hs
      exact Or.inr ⟨len, f5, hlen', hget, hf5, Or.inr (by rw [← h, he6])⟩
    | error e =>
      rw [hs] at h
      cases e <;> simp at h
      exact Or.inr ⟨len, f5, hlen', hget, hf5, Or.inl h.symm⟩

lemma funcRoot_ne_attr (rid : Nat) (x : String) :
    funcRoot rid ≠ funcRoot rid ++ [x] := by
  intro hc
  have := congrArg List.length hc
  simp at this

lemma funcRoot_ne_link (rid : Nat) :
    funcRoot rid ≠ ["configs", "c.1", funcName rid] := by
  intro hc
  have := congrArg List.length hc
  simp [funcRoot] at this

lemma functionBuild_pres {fs fs' : Fs} {d : Device} {ri rid : Nat}
    (h : functionBuild fs d ri rid = .ok fs') {q : FsPath} {e : Entry}
    (hq1 : ∀ x, q ≠ funcRoot rid ++ [x])
    (hq2 : q ≠ ["configs", "c.1", funcName rid])
    (hg : fs.get q = some e) : fs'.get q = some e := by
  rcases functionBuild_ok_cases h with ⟨rfl, _⟩ | ⟨len, f5, _, _, hf5, hor⟩
  · exact hg
  · have h5 : f5.get q = some e := by
      rw [hf5, get_set_ne (hq1 _), get_set_ne (hq1 _), get_set_ne (hq1 _),
        get_set_ne (hq1 _)]
      exact insertTree_pres hg
    rcases hor with rfl | rfl
    · exact h5
    · rw [get_set_ne hq2]
      exact h5

lemma functionBuild_root {fs fs' : Fs} {d : Device} {ri rid : Nat}
    (h : functionBuild fs d ri rid = .ok fs') :
    (fs'.get (funcRoot rid)).isSome := by
  rcases functionBuild_ok_cases h with ⟨rfl, hs⟩ | ⟨len, f5, _, hget, hf5, hor⟩
  · exact hs
  · have h5 : f5.get (funcRoot rid) = some .dir := by
      rw [hf5, get_set_ne (funcRoot_ne_attr rid _), get_set_ne (funcRoot_ne_attr rid _),
        get_set_ne (funcRoot_ne_attr rid _), get_set_ne (funcRoot_ne_attr rid _)]
      exact insertTree_self hget
    rcases hor with rfl | rfl
    · simp [h5]
    · rw [get_set_ne (funcRoot_ne_link rid)]
      simp [h5]

lemma functionBuild_mono {fs fs' : Fs} {d : Device} {ri rid : Nat}
    (h : functionBuild fs d ri rid = .ok fs') {q : FsPath}
    (hg : (fs.get q).isSome) : (fs'.get q).isSome := by
  rcases functionBuild_ok_cases h with ⟨rfl, _⟩ | ⟨len, f5, _, _, hf5, hor⟩
  · exact hg
  · have h5 : (f5.get q).isSome := by
      rw [hf5]
      exact get_set_isSome (get_set_isSome (get_set_isSome (get_set_isSome
        (insertTree_isSome hg))))
    rcases hor with rfl | rfl
    · exact h5
    · exact get_set_isSome h5

lemma mkdirP_mono {fs fs' : Fs} {p : FsPath} (h : mkdirP fs p = .ok fs')
    {q : FsPath} (hq : (fs.get q).isSome) : (fs'.get q).isSome := by
  rcases mkdirP_ok_cases h with ⟨_, rfl⟩ | ⟨_, rfl⟩
  · exact hq
  · exact insertTree_isSome hq

/-- `q` is untouched by the report-ID iteration for `rid`: it is neither an
attribute path of that function node nor the configuration link path. -/
def SafePath (q : FsPath) (rid : Nat) : Prop :=
  (∀ x, q ≠ funcRoot rid ++ [x]) ∧ q ≠ ["configs", "c.1", funcName rid]

lemma safePath_len {q : FsPath} (h : q.length ≠ 3) (rid : Nat) : SafePath q rid := by
  constructor
  · intro x hc
    apply h
    rw [hc]
    simp [funcRoot]
  · intro hc
    apply h
    rw [hc]
    simp

lemma safePath_strings (b c : String) (rid : Nat) :
    SafePath ["strings", b, c] rid := by
  constructor
  · intro x hc
    rw [funcRoot] at hc
    injection hc with h1 _
    exact absurd h1 (by decide)
  · intro hc
    injection hc with h1 _
    exact absurd h1 (by decide)

lemma safePath_maxPower (rid : Nat) :
    SafePath ["configs", "c.1", "MaxPower"] rid := by
  constructor
  · intro x hc
    rw [funcRoot] at hc
    injection hc with h1 _
    exact absurd h1 (by decide)
  · intro hc
    injection hc with _ hc
    injection hc with _ hc
    injection hc with h3 _
    exact absurd h3.symm (funcName_ne_MaxPower rid)

lemma safePath_bmAttributes (rid : Nat) :
    SafePath ["configs", "c.1", "bmAttributes"] rid := by
  constructor
  · intro x hc
    rw [funcRoot] at hc
    injection hc with h1 _
    exact absurd h1 (by decide)
  · intro hc
    injection hc with _ hc
    injection hc with _ hc
    injection hc with h3 _
    exact absurd h3.symm (funcName_ne_bmAttributes rid)

lemma mem_enumFrom_snd {α : Type} :
    ∀ (l : List α) (n : Nat) (p : Nat × α), p ∈ l.enumFrom n → p.2 ∈ l := by
  intro l
  induction l with
  | nil => intro n p hp; simp [List.enumFrom] at hp
  | cons a t ih =>
    intro n p hp
    rw [List.enumFrom] at hp
    rcases List.mem_cons.mp hp with rfl | hp
    · exact List.mem_cons_self _ _
    · exact List.mem_cons_of_mem _ (ih (n + 1) p hp)

lemma mem_enumFrom_of_mem {α : Type} :
    ∀ (l : List α) (n : Nat) (a : α), a ∈ l → ∃ i, (i, a) ∈ l.enumFrom n := by
  intro l
  induction l with
  | nil => intro n a ha; simp at ha
  | cons b t ih =>
    intro n a ha
    rw [List.enumFrom]
    rcases List.mem_cons.mp ha with rfl | ha
    · exact ⟨n, List.mem_cons_self _ _⟩
    · obtain ⟨i, hi⟩ := ih (n + 1) a ha
      exact ⟨i, List.mem_cons_of_mem _ hi⟩

lemma funcFold_pres {d : Device} {q : FsPath} {e : Entry} :
    ∀ (l : List (Nat × Nat)) (fs fs' : Fs),
      l.foldlM (fun cur p => functionBuild cur d p.1 p.2) fs = .ok fs' →
      (∀ p ∈ l, SafePath q p.2) → fs.get q = some e → fs'.get q = some e := by
  intro l
  induction l with
  | nil =>
    intro fs fs' h _ hg
    simp [List.foldlM_nil] at h
    rw [← h]
    exact hg
  | cons a t ih =>
    intro fs fs' h hsafe hg
    rw [List.foldlM_cons] at h
    obtain ⟨fsA, hA, h⟩ := bindE_ok h
    have hs := hsafe a (List.mem_cons_self _ _)
    exact ih fsA fs' h (fun p hp => hsafe p (List.mem_cons_of_mem _ hp))
      (functionBuild_pres hA hs.1 hs.2 hg)

lemma funcFold_mono {d : Device} {q : FsPath} :
    ∀ (l : List (Nat × Nat)) (fs fs' : Fs),
      l.foldlM (fun cur p => functionBuild cur d p.1 p.2) fs = .ok fs' →
      (fs.get q).isSome → (fs'.get q).isSome := by
  intro l
  induction l with
  | nil =>
    intro fs fs' h hg
    simp [List.foldlM_nil] at h
    rw [← h]
    exact hg
  | cons a t ih =>
    intro fs fs' h hg
    rw [List.foldlM_cons] at h
    obtain ⟨fsA, hA, h⟩ := bindE_ok h
    exact ih fsA fs' h (functionBuild_mono hA hg)

lemma funcFold_roots {d : Device} :
    ∀ (l : List (Nat × Nat)) (fs fs' : Fs),
      l.foldlM (fun cur p => functionBuild cur d p.1 p.2) fs = .ok fs' →
      ∀ p ∈ l, ((fs'.get (funcRoot p.2)).isSome) := by
  intro l
  induction l with
  | nil => intro fs fs' _ p hp; simp at hp
  | cons a t ih =>
    intro fs fs' h p hp
    rw [List.foldlM_cons] at h
    obtain ⟨fsA, hA, h2⟩ := bindE_ok h
    clear h
    rcases List.mem_cons.mp hp with rfl | hp
    · exact funcFold_mono (d := d) (q := funcRoot p.2) t fsA fs' h2
        (functionBuild_root hA)
    · exact ih fsA fs' h2 p hp

lemma funcFold_id {d : Device} :
    ∀ (l : List (Nat × Nat)) (fs : Fs),
      (∀ p ∈ l, ((fs.get (funcRoot p.2)).isSome)) →
      l.foldlM (fun cur p => functionBuild cur d p.1 p.2) fs = .ok fs := by
  intro l
  induction l with
  | nil => intro fs _; simp [List.foldlM_nil]
  | cons a t ih =>
    intro fs hroots
    obtain ⟨e, he⟩ := Option.isSome_iff_exists.mp (hroots a (List.mem_cons_self _ _))
    rw [List.foldlM_cons, functionBuild_skip he, ok_bind]
    exact ih fs (fun p hp => hroots p (List.mem_cons_of_mem _ hp))

lemma functionsBuild_pres {fs fs' : Fs} {d : Device} {q : FsPath} {e : Entry}
    (h : functionsBuild fs d = .ok fs')
    (hsafe : ∀ rid ∈ d.report_ids, SafePath q rid)
    (hg : fs.get q = some e) : fs'.get q = some e :=
  funcFold_pres _ _ _ h
    (fun p hp => hsafe p.2 (mem_enumFrom_snd _ _ _ hp)) hg

lemma functionsBuild_mono {fs fs' : Fs} {d : Device} {q : FsPath}
    (h : functionsBuild fs d = .ok fs')
    (hg : (fs.get q).isSome) : (fs'.get q).isSome :=
  funcFold_mono _ _ _ h hg

lemma functionsBuild_roots {fs fs' : Fs} {d : Device}
    (h : functionsBuild fs d = .ok fs') :
    ∀ rid ∈ d.report_ids, ((fs'.get (funcRoot rid)).isSome) := by
  intro rid hrid
  obtain ⟨i, hi⟩ := mem_enumFrom_of_mem _ 0 rid hrid
  exact funcFold_roots _ _ _ h (i, rid) hi

lemma functionsBuild_id {fs : Fs} {d : Device}
    (hroots : ∀ rid ∈ d.report_ids, ((fs.get (funcRoot rid)).isSome)) :
    functionsBuild fs d = .ok fs :=
  funcFold_id _ _ (fun p hp => hroots p.2 (mem_enumFrom_snd _ _ _ hp))

lemma functionsBuild_presHeader {fs fs' : Fs} {d : Device}
    (h : functionsBuild fs d = .ok fs') (hh : HeaderFacts fs) : HeaderFacts fs' where
  root := functionsBuild_pres h (fun rid _ => safePath_len (by simp) rid) hh.root
  funcs := functionsBuild_pres h (fun rid _ => safePath_len (by simp) rid) hh.funcs
  cfgs := functionsBuild_pres h (fun rid _ => safePath_len (by simp) rid) hh.cfgs
  strs := functionsBuild_pres h (fun rid _ => safePath_len (by simp) rid) hh.strs
  bcdDevice := functionsBuild_pres h (fun rid _ => safePath_len (by simp) rid) hh.bcdDevice
  bcdUSB := functionsBuild_pres h (fun rid _ => safePath_len (by simp) rid) hh.bcdUSB
  bDeviceClass := functionsBuild_pres h (fun rid _ => safePath_len (by simp) rid) hh.bDeviceClass
  bDeviceProtocol := functionsBuild_pres h (fun rid _ => safePath_len (by simp) rid) hh.bDeviceProtocol
  bDeviceSubClass := functionsBuild_pres h (fun rid _ => safePath_len (by simp) rid) hh.bDeviceSubClass
  bMaxPacketSize0 := functionsBuild_pres h (fun rid _ => safePath_len (by simp) rid) hh.bMaxPacketSize0
  idProduct := functionsBuild_pres h (fun rid _ => safePath_len (by simp) rid) hh.idProduct
  idVendor := functionsBuild_pres h (fun rid _ => safePath_len (by simp) rid) hh.idVendor
  serial := functionsBuild_pres h (fun rid _ => safePath_strings _ _ rid) hh.serial
  manuf := functionsBuild_pres h (fun rid _ => safePath_strings _ _ rid) hh.manuf
  product := functionsBuild_pres h (fun rid _ => safePath_strings _ _ rid) hh.product

lemma functionsBuild_presConfig {fs fs' : Fs} {d : Device}
    (h : functionsBuild fs d = .ok fs') (hc : ConfigFacts fs) : ConfigFacts fs' where
  c1 := functionsBuild_pres h (fun rid _ => safePath_len (by simp) rid) hc.c1
  c1s := functionsBuild_pres h (fun rid _ => safePath_len (by simp) rid) hc.c1s
  conf := functionsBuild_pres h (fun rid _ => safePath_len (by simp) rid) hc.conf
  maxPower := functionsBuild_pres h (fun rid _ => safePath_maxPower rid) hc.maxPower
  bmAttrs := functionsBuild_pres h (fun rid _ => safePath_bmAttributes rid) hc.bmAttrs

lemma configBuild_mono {fs fs' : Fs} (h : configBuild fs = .ok fs')
    {q : FsPath} (hg : (fs.get q).isSome) : (fs'.get q).isSome := by
  unfold configBuild at h
  obtain ⟨f1, h1, h⟩ := bindE_ok h
  obtain ⟨f2, h2, h⟩ := bindE_ok h
  obtain ⟨f3, h3, h⟩ := bindE_ok h
  obtain ⟨f4, h4, h⟩ := bindE_ok h
  obtain ⟨f5, h5, h⟩ := bindE_ok h
  have hfin : fs' = f5 := by simpa using h.symm
  subst hfin
  obtain ⟨_, he3⟩ := writeText_ok h3
  obtain ⟨_, he4⟩ := writeText_ok h4
  obtain ⟨_, he5⟩ := writeText_ok h5
  rw [he5, he4, he3]
  exact get_set_isSome (get_set_isSome (get_set_isSome
    (mkdirP_mono h2 (mkdirP_mono h1 hg))))

lemma configBuild_presHeader {fs fs' : Fs} (h : configBuild fs = .ok fs')
    (hh : HeaderFacts fs) : HeaderFacts fs' := by
  obtain ⟨_, hp⟩ := configBuild_ok h
  exact ⟨hp _ _ (by decide) hh.root, hp _ _ (by decide) hh.funcs,
    hp _ _ (by decide) hh.cfgs, hp _ _ (by decide) hh.strs,
    hp _ _ (by decide) hh.bcdDevice, hp _ _ (by decide) hh.bcdUSB,
    hp _ _ (by decide) hh.bDeviceClass, hp _ _ (by decide) hh.bDeviceProtocol,
    hp _ _ (by decide) hh.bDeviceSubClass, hp _ _ (by decide) hh.bMaxPacketSize0,
    hp _ _ (by decide) hh.idProduct, hp _ _ (by decide) hh.idVendor,
    hp _ _ (by decide) hh.serial, hp _ _ (by decide) hh.manuf,
    hp _ _ (by decide) hh.product⟩

lemma deviceBuild_ok {st : ModuleState} {fs : Fs} {d : Device}
    {st' : ModuleState} {fs' : Fs} (h : deviceBuild st fs d = .ok (st', fs')) :
    st' = { st with devices := st.devices ++ [d] } ∧
    ∃ fsA, configBuild fs = .ok fsA ∧ functionsBuild fsA d = .ok fs' := by
  unfold deviceBuild at h
  obtain ⟨fsA, hA, h2⟩ := bindE_ok h
  clear h
  obtain ⟨fsB, hB, h3⟩ := bindE_ok h2
  clear h2
  have h4 : ({ st with devices := st.devices ++ [d] }, fsB) = (st', fs') := by
    simpa using h3
  obtain ⟨hst, hfs⟩ := Prod.mk.injEq .. ▸ h4
  exact ⟨hst.symm, fsA, hA, hfs ▸ hB⟩

lemma deviceBuild_post {st : ModuleState} {fs : Fs} {d : Device}
    {st' : ModuleState} {fs' : Fs} (h : deviceBuild st fs d = .ok (st', fs'))
    (hh : HeaderFacts fs) :
    HeaderFacts fs' ∧ ConfigFacts fs' ∧
    (∀ rid ∈ d.report_ids, ((fs'.get (funcRoot rid)).isSome)) ∧
    (∀ q, (fs.get q).isSome → (fs'.get q).isSome) ∧
    st' = { st with devices := st.devices ++ [d] } := by
  obtain ⟨hst, fsA, hA, hB⟩ := deviceBuild_ok h
  obtain ⟨hcfgA, _⟩ := configBuild_ok hA
  exact ⟨functionsBuild_presHeader hB (configBuild_presHeader hA hh),
    functionsBuild_presConfig hB hcfgA,
    functionsBuild_roots hB,
    fun q hq => functionsBuild_mono hB (configBuild_mono hA hq), hst⟩

lemma buildLoop_post :
    ∀ (ds : List Device) (st : ModuleState) (fs : Fs) (st' : ModuleState)
      (fs₁ : Fs), buildLoop st fs ds = .ok (st', fs₁) → HeaderFacts fs →
      HeaderFacts fs₁ ∧
      (∀ q, (fs.get q).isSome → (fs₁.get q).isSome) ∧
      (ConfigFacts fs → ConfigFacts fs₁) ∧
      (ds ≠ [] → ConfigFacts fs₁) ∧
      (∀ d ∈ ds, ∀ rid ∈ d.report_ids, ((fs₁.get (funcRoot rid)).isSome)) ∧
      st' = { st with devices := st.devices ++ ds } := by
  intro ds
  induction ds with
  | nil =>
    intro st fs st' fs₁ h hh
    unfold buildLoop at h
    rw [List.foldlM_nil] at h
    have h4 : (st, fs) = (st', fs₁) := by simpa using h
    obtain ⟨hst, hfs⟩ := Prod.mk.injEq .. ▸ h4
    subst hst
    subst hfs
    refine ⟨hh, fun q hq => hq, fun hc => hc, fun hne => absurd rfl hne,
      by simp, ?_⟩
    simp
  | cons d t ih =>
    intro st fs st' fs₁ h hh
    unfold buildLoop at h
    rw [List.foldlM_cons] at h
    obtain ⟨acc, hA, h2⟩ := bindE_ok h
    clear h
    obtain ⟨stA, fsA⟩ := acc
    obtain ⟨hdA, hcA, rootsA, monoA, hstA⟩ := deviceBuild_post hA hh
    obtain ⟨hd1, mono1, cfgImp1, _, roots1, hst1⟩ := ih stA fsA st' fs₁ h2 hdA
    refine ⟨hd1, fun q hq => mono1 q (monoA q hq), fun _ => cfgImp1 hcA,
      fun _ => cfgImp1 hcA, ?_, ?_⟩
    · intro d' hd' rid hrid
      rcases List.mem_cons.mp hd' with rfl | hd'
      · exact mono1 _ (rootsA rid hrid)
      · exact roots1 d' hd' rid hrid
    · rw [hst1, hstA]
      simp

lemma buildLoop_id :
    ∀ (ds : List Device) (st : ModuleState) (fs : Fs), HeaderFacts fs →
      ConfigFacts fs →
      (∀ d ∈ ds, ∀ rid ∈ d.report_ids, ((fs.get (funcRoot rid)).isSome)) →
      buildLoop st fs ds = .ok ({ st with devices := st.devices ++ ds }, fs) := by
  intro ds
  induction ds with
  | nil =>
    intro st fs _ _ _
    unfold buildLoop
    rw [List.foldlM_nil]
    simp
  | cons d t ih =>
    intro st fs hh hc hroots
    unfold buildLoop
    rw [List.foldlM_cons]
    have hdev : deviceBuild st fs d =
        .ok ({ st with devices := st.devices ++ [d] }, fs) := by
      unfold deviceBuild
      simp only [configBuild_id hc, ok_bind,
        functionsBuild_id (hroots d (List.mem_cons_self _ _)), pureE]
    show deviceBuild st fs d >>= _ = _
    rw [hdev, ok_bind]
    have ihh := ih { st with devices := st.devices ++ [d] } fs hh hc
      (fun d' hd' => hroots d' (List.mem_cons_of_mem _ hd'))
    rw [show (st.devices ++ [d]) ++ t = st.devices ++ (d :: t) by simp] at ihh
    exact ihh

lemma bindUdc_ok {fs fs' : Fs} {udcs : List String}
    (h : bindUdc fs udcs = .ok fs') :
    ∃ u rest, udcs = u :: rest ∧ fs.get [] = some .dir ∧
      fs' = fs.set ["UDC"] (.tfile u) := by
  cases udcs with
  | nil => simp [bindUdc] at h
  | cons u rest =>
    unfold bindUdc at h
    obtain ⟨hp, he⟩ := writeText_ok h
    exact ⟨u, rest, rfl, hp, he⟩

lemma bindUdc_id {fs : Fs} {u : String} {rest : List String}
    (hroot : fs.get [] = some .dir) (hudc : fs.get ["UDC"] = some (.tfile u)) :
    bindUdc fs (u :: rest) = .ok fs := by
  unfold bindUdc
  exact writeText_id hroot hudc

lemma headerFacts_setUDC {fs : Fs} {e : Entry} (hh : HeaderFacts fs) :
    HeaderFacts (fs.set ["UDC"] e) where
  root := by rw [get_set_ne (by decide)]; exact hh.root
  funcs := by rw [get_set_ne (by decide)]; exact hh.funcs
  cfgs := by rw [get_set_ne (by decide)]; exact hh.cfgs
  strs := by rw [get_set_ne (by decide)]; exact hh.strs
  bcdDevice := by rw [get_set_ne (by decide)]; exact hh.bcdDevice
  bcdUSB := by rw [get_set_ne (by decide)]; exact hh.bcdUSB
  bDeviceClass := by rw [get_set_ne (by decide)]; exact hh.bDeviceClass
  bDeviceProtocol := by rw [get_set_ne (by decide)]; exact hh.bDeviceProtocol
  bDeviceSubClass := by rw [get_set_ne (by decide)]; exact hh.bDeviceSubClass
  bMaxPacketSize0 := by rw [get_set_ne (by decide)]; exact hh.bMaxPacketSize0
  idProduct := by rw [get_set_ne (by decide)]; exact hh.idProduct
  idVendor := by rw [get_set_ne (by decide)]; exact hh.idVendor
  serial := by rw [get_set_ne (by decide)]; exact hh.serial
  manuf := by rw [get_set_ne (by decide)]; exact hh.manuf
  product := by rw [get_set_ne (by decide)]; exact hh.product

lemma configFacts_setUDC {fs : Fs} {e : Entry} (hc : ConfigFacts fs) :
    ConfigFacts (fs.set ["UDC"] e) where
  c1 := by rw [get_set_ne (by decide)]; exact hc.c1
  c1s := by rw [get_set_ne (by decide)]; exact hc.c1s
  conf := by rw [get_set_ne (by decide)]; exact hc.conf
  maxPower := by rw [get_set_ne (by decide)]; exact hc.maxPower
  bmAttrs := by rw [get_set_ne (by decide)]; exact hc.bmAttrs

lemma overrideDevices_ne_nil {ds : List Device} {b : Int} (h : ds ≠ []) :
    overrideDevices ds b ≠ [] := by
  by_cases h2 : b = 2
  · simp [overrideDevices, h2]
  · by_cases h1 : b = 1
    · simp [overrideDevices, h1, h2]
    · simpa [overrideDevices, h1, h2] using h

lemma enable_ok_parts {st0 : ModuleState} {fs : Fs} {udcs : List String}
    {ds : List Device} {b : Int} {r : EnableOk} (hne : ds ≠ [])
    (h : enable st0 fs udcs ds b = .ok r) :
    ∃ fsH stB fsB fsU updated,
      headerBuild fs = .ok fsH ∧
      buildLoop { st0 with boot_device := b } fsH (overrideDevices ds b) =
        .ok (stB, fsB) ∧
      bindUdc fsB udcs = .ok fsU ∧
      resolvePaths fsU (overrideDevices ds b) = .ok updated ∧
      r = ⟨{ stB with devices := st0.devices ++ updated }, fsU, updated⟩ := by
  simp only [enable, if_neg (show ¬ ds.length = 0 by simpa using hne)] at h
  obtain ⟨fsH, hH, h2⟩ := bindE_ok h
  clear h
  obtain ⟨acc, hL, h3⟩ := bindE_ok h2
  clear h2
  obtain ⟨stB, fsB⟩ := acc
  obtain ⟨fsU, hU, h4⟩ := bindE_ok h3
  clear h3
  obtain ⟨updated, hR, h5⟩ := bindE_ok h4
  clear h4
  have hr : r = ⟨{ stB with devices := st0.devices ++ updated }, fsU, updated⟩ := by
    simpa using h5.symm
  exact ⟨fsH, stB, fsB, fsU, updated, hH, hL, hU, hR, hr⟩

/-- Core of the idempotence analysis: a second `enable` with the same inputs
leaves the tree exactly as the first one did and appends the same device
batch to `this.devices` a second time. -/
lemma enable_twice {st0 : ModuleState} {fs : Fs} {udcs : List String}
    {ds : List Device} {b : Int} {r : EnableOk} (hne : ds ≠ [])
    (h : enable st0 fs udcs ds b = .ok r) :
    enable r.st r.fs udcs ds b =
      .ok ⟨{ boot_device := b, devices := r.st.devices ++ r.requested },
        r.fs, r.requested⟩ := by
  obtain ⟨fsH, stB, fsB, fsU, updated, hH, hL, hU, hR, hr⟩ :=
    enable_ok_parts hne h
  have hdrH := headerBuild_ok hH
  obtain ⟨hd1, mono1, _, cfgNe1, roots1, hstB⟩ :=
    buildLoop_post _ _ _ _ _ hL hdrH
  have hcfg1 : ConfigFacts fsB := cfgNe1 (overrideDevices_ne_nil hne)
  obtain ⟨u, rest, hudcs, hrootB, hfsU⟩ := bindUdc_ok hU
  have hd2 : HeaderFacts fsU := hfsU ▸ headerFacts_setUDC hd1
  have hc2 : ConfigFacts fsU := hfsU ▸ configFacts_setUDC hcfg1
  have roots2 : ∀ d ∈ overrideDevices ds b, ∀ rid ∈ d.report_ids,
      ((fsU.get (funcRoot rid)).isSome) := by
    intro d hd rid hrid
    rw [hfsU]
    exact get_set_isSome (roots1 d hd rid hrid)
  have hudcF : fsU.get ["UDC"] = some (.tfile u) := by
    rw [hfsU, Fs.get_set, if_pos rfl]
  subst hr
  simp only [enable, if_neg (show ¬ ds.length = 0 by simpa using hne)]
  rw [headerBuild_id hd2, ok_bind]
  rw [buildLoop_id _ _ _ hd2 hc2 roots2, ok_bind]
  rw [hudcs, bindUdc_id hd2.root hudcF, ok_bind]
  rw [hR, ok_bind]
  rfl

lemma overrideDevices_one (ds : List Device) :
    overrideDevices ds 1 = [Device.BOOT_KEYBOARD] := by
  simp [overrideDevices]

lemma overrideDevices_two (ds : List Device) :
    overrideDevices ds 2 = [Device.BOOT_MOUSE] := by
  simp [overrideDevices]

lemma resolvePaths_singleton {fs : Fs} {d : Device} {updated : List Device}
    (h : resolvePaths fs [d] = .ok updated) :
    ∃ p, get_device_path fs d none = .ok p ∧
      updated = [{ d with path := some p }] := by
  unfold resolvePaths at h
  rw [List.mapM_cons, List.mapM_nil] at h
  obtain ⟨x, hx, h2⟩ := bindE_ok h
  clear h
  obtain ⟨p, hp, hx2⟩ := bindE_ok hx
  have hxv : x = { d with path := some p } := by simpa using hx2.symm
  subst hxv
  have : updated = [{ d with path := some p }] := by simpa using h2.symm
  exact ⟨p, hp, this⟩

lemma mkdirStrict_of_none {fs : Fs} {p : FsPath} (h : fs.get p = none) :
    mkdirStrict fs p = .ok (insertTree fs p) := by
  unfold mkdirStrict
  rw [h]

lemma writeText_of_dir {fs : Fs} {p : FsPath} {c : String}
    (h : fs.get p.dropLast = some .dir) :
    writeText fs p c = .ok (fs.set p (.tfile c)) := by
  unfold writeText
  rw [h]

lemma writeBytes_of_dir {fs : Fs} {p : FsPath} {b : List Nat}
    (h : fs.get p.dropLast = some .dir) :
    writeBytes fs p b = .ok (fs.set p (.bfile b)) := by
  unfold writeBytes
  rw [h]

lemma symlinkTo_of_some {fs : Fs} {dst tgt : FsPath} {e : Entry}
    (h : fs.get dst = some e) : symlinkTo fs dst tgt = .error .fileExists := by
  unfold symlinkTo
  rw [h]

lemma link_ne_attr (rid : Nat) (x : String) :
    (["configs", "c.1", funcName rid] : FsPath) ≠ funcRoot rid ++ [x] := by
  intro hc
  rw [funcRoot] at hc
  injection hc with h1 _
  exact absurd h1 (by decide)

/-- When the function node is absent but the configuration link is still
present (a dangling link), the `symlink_to` call raises `FileExistsError`,
which the `except FileNotFoundError` clause does not catch. -/
lemma functionBuild_link_exists {fs : Fs} {d : Device} {ri rid : Nat}
    {len : Nat} {e : Entry}
    (hroot : fs.get (funcRoot rid) = none)
    (hlen : d.in_report_lengths.get? ri = some len)
    (hlink : fs.get ["configs", "c.1", funcName rid] = some e) :
    functionBuild fs d ri rid = .error .fileExists := by
  unfold functionBuild
  rw [mkdirStrict_of_none hroot]
  dsimp only
  have h1 : (insertTree fs (funcRoot rid)).get (funcRoot rid) = some .dir :=
    insertTree_self hroot
  have hdl : ∀ x : String, (funcRoot rid ++ [x]).dropLast = funcRoot rid := by
    intro x
    simp
  rw [writeText_of_dir (p := funcRoot rid ++ ["protocol"]) (by rw [hdl]; exact h1),
    ok_bind]
  rw [hlen]
  simp only [ok_bind]
  rw [writeText_of_dir (p := funcRoot rid ++ ["report_length"])
    (by rw [hdl, get_set_ne (funcRoot_ne_attr rid _)]; exact h1), ok_bind]
  rw [writeText_of_dir (p := funcRoot rid ++ ["subclass"])
    (by rw [hdl, get_set_ne (funcRoot_ne_attr rid _),
          get_set_ne (funcRoot_ne_attr rid _)]
        exact h1), ok_bind]
  rw [writeBytes_of_dir (p := funcRoot rid ++ ["report_desc"])
    (by rw [hdl, get_set_ne (funcRoot_ne_attr rid _),
          get_set_ne (funcRoot_ne_attr rid _), get_set_ne (funcRoot_ne_attr rid _)]
        exact h1), ok_bind]
  rw [symlinkTo_of_some (e := e)
    (by rw [get_set_ne (link_ne_attr rid _), get_set_ne (link_ne_attr rid _),
          get_set_ne (link_ne_attr rid _), get_set_ne (link_ne_attr rid _)]
        exact insertTree_pres hlink)]

/-! Transport-layer lemmas. -/

lemma effectiveReportId_err {report_id : Option Nat} {ids : List Nat} {e : PyErr}
    (h : effectiveReportId report_id ids = .error e) : e = .indexError := by
  unfold effectiveReportId at h
  cases report_id with
  | none =>
    cases ids with
    | nil => simpa [pyHead] using h.symm
    | cons i t => simp [pyHead] at h
  | some n =>
    dsimp only at h
    by_cases hn : n = 0
    · subst hn
      rw [if_pos rfl] at h
      cases ids with
      | nil => simpa [pyHead] using h.symm
      | cons i t => simp [pyHead] at h
    · rw [if_neg hn] at h
      simp at h

lemma get_device_path_err {fs : Fs} {d : Device} {report_id : Option Nat}
    {e : PyErr} (h : get_device_path fs d report_id = .error e) :
    e = .indexError ∨ e = .fileNotFound ∨ e = .other := by
  unfold get_device_path at h
  cases hr : effectiveReportId report_id d.report_ids with
  | error e' =>
    rw [hr] at h
    simp at h
    exact Or.inl (h ▸ effectiveReportId_err hr)
  | ok rid =>
    rw [hr, ok_bind] at h
    cases hg : fs.get (funcRoot rid ++ ["dev"]) with
    | none => rw [hg] at h; simp at h; simp [h]
    | some e' =>
      cases e' with
      | tfile content =>
        rw [hg] at h
        dsimp only at h
        cases hs : (splitCharList ':' (stripChars content.data)).get? 1 with
        | none => rw [hs] at h; simp at h; simp [h]
        | some m => rw [hs] at h; simp at h
      | dir => rw [hg] at h; simp at h; simp [h]
      | bfile b => rw [hg] at h; simp at h; simp [h]
      | link t => rw [hg] at h; simp at h; simp [h]

lemma cacheGet_set (c : FdCache) (p : String) (fd : Nat) (q : String) :
    cacheGet (cacheSet c p fd) q = if q = p then some fd else cacheGet c q := by
  induction c with
  | nil =>
    simp only [cacheSet, cacheGet]
    by_cases h : q = p
    · rw [if_pos h.symm, if_pos h]
    · rw [if_neg (fun hc => h hc.symm), if_neg h]
  | cons kv t ih =>
    obtain ⟨k, v⟩ := kv
    simp only [cacheSet]
    by_cases hk : k = p
    · subst hk
      simp only [if_pos rfl, cacheGet]
      by_cases hq : k = q
      · rw [if_pos hq, if_pos hq.symm]
      · rw [if_neg hq, if_neg (fun hc => hq hc.symm), if_neg hq]
    · simp only [if_neg hk, cacheGet, ih]
      by_cases hq : k = q
      · have hqp : ¬ q = p := fun hc => hk (hq.trans hc)
        rw [if_pos hq, if_neg hqp, if_pos hq]
      · rw [if_neg hq, if_neg hq]

lemma cacheGet_closeFd (c : FdCache) (p : String) :
    cacheGet (closeFd c p) p = none := by
  induction c with
  | nil => simp [closeFd, cacheGet]
  | cons kv t ih =>
    obtain ⟨k, v⟩ := kv
    by_cases hk : k = p
    · simpa [closeFd, hk] using ih
    · simpa [closeFd, cacheGet, hk] using ih

lemma getNonblockingFd_err {c : FdCache} {p : String} {openRes : Except Nat Nat}
    {n : Nat} (h : getNonblockingFd c p openRes = .error n) :
    cacheGet c p = none ∧ openRes = .error n := by
  unfold getNonblockingFd at h
  cases hg : cacheGet c p with
  | some fd => rw [hg] at h; simp at h
  | none =>
    rw [hg] at h
    cases openRes with
    | ok fd => simp at h
    | error m => simp at h; exact ⟨rfl, by rw [h]⟩

lemma getNonblockingFd_ok {c c' : FdCache} {p : String}
    {openRes : Except Nat Nat} {fd : Nat}
    (h : getNonblockingFd c p openRes = .ok (fd, c')) :
    cacheGet c' p = some fd := by
  unfold getNonblockingFd at h
  cases hg : cacheGet c p with
  | some fd' =>
    rw [hg] at h
    simp at h
    obtain ⟨h1, h2⟩ := h
    rw [← h2, hg, h1]
  | none =>
    rw [hg] at h
    cases openRes with
    | ok fd' =>
      simp at h
      obtain ⟨h1, h2⟩ := h
      rw [← h2, cacheGet_set, if_pos rfl, h1]
    | error m => simp at h

lemma foldl_closeFd (ks : List String) :
    ∀ c : FdCache, ks.foldl closeFd c = c.filter (fun e => ¬ e.1 ∈ ks) := by
  induction ks with
  | nil => intro c; simp [List.foldl_nil, List.filter_eq_self]
  | cons k t ih =>
    intro c
    rw [List.foldl_cons, ih]
    unfold closeFd
    rw [List.filter_filter]
    apply List.filter_congr
    intro e _
    by_cases h1 : e.1 = k <;> by_cases h2 : e.1 ∈ t <;>
      simp [h1, h2]

/-- `Device.__del__` empties the shared descriptor cache. -/
lemma delDevice_empty (c : FdCache) : delDevice c = [] := by
  unfold delDevice
  rw [foldl_closeFd]
  rw [List.filter_eq_nil_iff]
  intro e he
  simp only [decide_not, Bool.not_eq_true', decide_eq_false_iff_not, not_not]
  exact List.mem_map_of_mem Prod.fst he

/-! Claim theorems. -/

/-- C1 counterexample: the claim says a double `enable` produces "the same
in-memory enabled-device list as calling it once".  With the keyboard
profile and a fresh state, one call leaves one enabled device but two calls
leave two: `this.devices.append(device)` runs again because `enable` never
tears down a nonempty build. -/
theorem c1_counterexample :
    ((enable ⟨0, []⟩ [(["functions", "hid.usb1", "dev"], .tfile "239:0")]
        ["udc0"] [Device.KEYBOARD] 0).bind
      (fun r => enable r.st r.fs ["udc0"] [Device.KEYBOARD] 0)).map
        (fun r => r.st.devices.length) = .ok 2 ∧
    (enable ⟨0, []⟩ [(["functions", "hid.usb1", "dev"], .tfile "239:0")]
        ["udc0"] [Device.KEYBOARD] 0).map
        (fun r => r.st.devices.length) = .ok 1 := by
  constructor
  · decide
  · decide

/-- C1 (amended): after a successful `enable(D, boot_device)` with nonempty
`D`, calling `enable` again with the same inputs succeeds and produces the
identical gadget tree and the identical resolved device batch — not via a
teardown (none happens) but because existing nodes are skipped — while the
in-memory `this.devices` list receives the same batch appended a second
time. -/
theorem c1_enable_twice_same_tree_devices_appended
    (st0 : ModuleState) (fs : Fs) (udcs : List String) (ds : List Device)
    (b : Int) (r : EnableOk) (hne : ds ≠ [])
    (h : enable st0 fs udcs ds b = .ok r) :
    enable r.st r.fs udcs ds b =
      .ok ⟨{ boot_device := b, devices := r.st.devices ++ r.requested },
        r.fs, r.requested⟩ :=
  enable_twice hne h

/-- Witness for C1 at a concrete input: the first `enable` succeeds, and the
second run equals the map-described repetition. -/
theorem c1_witness :
    (enable ⟨0, []⟩ [(["functions", "hid.usb1", "dev"], .tfile "239:0")]
        ["udc0"] [Device.KEYBOARD] 0).isOk = true ∧
    (enable ⟨0, []⟩ [(["functions", "hid.usb1", "dev"], .tfile "239:0")]
        ["udc0"] [Device.KEYBOARD] 0).bind
      (fun r => enable r.st r.fs ["udc0"] [Device.KEYBOARD] 0) =
    (enable ⟨0, []⟩ [(["functions", "hid.usb1", "dev"], .tfile "239:0")]
        ["udc0"] [Device.KEYBOARD] 0).map
      (fun r => ⟨{ boot_device := 0, devices := r.st.devices ++ r.requested },
        r.fs, r.requested⟩) := by
  refine ⟨by decide, ?_⟩
  cases hrun : enable ⟨0, []⟩ [(["functions", "hid.usb1", "dev"], .tfile "239:0")]
      ["udc0"] [Device.KEYBOARD] 0 with
  | error e => rfl
  | ok r =>
    simp only [Except.bind, Except.map]
    exact c1_enable_twice_same_tree_devices_appended _ _ _ _ _ _ (by decide) hrun

/-- C2 counterexample: with the empty request sequence the boot-device
override is never reached — `enable([], boot_device=1)` runs `disable()` and
ends with zero enabled devices, not with the boot keyboard. -/
theorem c2_counterexample :
    (enable ⟨0, []⟩ [] ["udc0"] [] 1).map (fun r => r.st.devices.length) =
      .ok 0 ∧
    (enable ⟨0, []⟩ [] ["udc0"] [] 1).map (fun r => r.st.devices.length) ≠
      .ok 1 := by
  constructor
  · decide
  · decide

/-- C2 (amended): for every *nonempty* request sequence, starting from an
empty enabled-device list, a successful `enable(..., boot_device=1)` ends
with exactly the boot keyboard as the single enabled device, and
`boot_device=2` ends with exactly the boot mouse; the caller-supplied list
is discarded.  (`enable([])` instead short-circuits into `disable()`.) -/
theorem c2_boot_device_override
    (st0 : ModuleState) (fs : Fs) (udcs : List String) (ds : List Device)
    (r : EnableOk) (hne : ds ≠ []) (hdev : st0.devices = []) :
    (enable st0 fs udcs ds 1 = .ok r →
      ∃ p, r.st.devices = [{ Device.BOOT_KEYBOARD with path := some p }]) ∧
    (enable st0 fs udcs ds 2 = .ok r →
      ∃ p, r.st.devices = [{ Device.BOOT_MOUSE with path := some p }]) := by
  constructor
  · intro h
    obtain ⟨fsH, stB, fsB, fsU, updated, hH, hL, hU, hR, hr⟩ :=
      enable_ok_parts hne h
    rw [overrideDevices_one] at hR
    obtain ⟨p, hp, hupd⟩ := resolvePaths_singleton hR
    refine ⟨p, ?_⟩
    rw [hr]
    simp [hdev, hupd]
  · intro h
    obtain ⟨fsH, stB, fsB, fsU, updated, hH, hL, hU, hR, hr⟩ :=
      enable_ok_parts hne h
    rw [overrideDevices_two] at hR
    obtain ⟨p, hp, hupd⟩ := resolvePaths_singleton hR
    refine ⟨p, ?_⟩
    rw [hr]
    simp [hdev, hupd]

/-- Witness for C2 at concrete inputs: a keyboard request with
`boot_device=1` ends as exactly the boot keyboard, and with `boot_device=2`
as exactly the boot mouse. -/
theorem c2_witness :
    (enable ⟨0, []⟩ [(["functions", "hid.usb0", "dev"], .tfile "239:4")]
        ["udc0"] [Device.KEYBOARD] 1).map
      (fun r => r.st.devices.map (fun d => { d with path := none })) =
      .ok [Device.BOOT_KEYBOARD] ∧
    (enable ⟨0, []⟩ [(["functions", "hid.usb0", "dev"], .tfile "239:4")]
        ["udc0"] [Device.KEYBOARD] 2).map
      (fun r => r.st.devices.map (fun d => { d with path := none })) =
      .ok [Device.BOOT_MOUSE] := by
  constructor
  · cases hrun : enable ⟨0, []⟩ [(["functions", "hid.usb0", "dev"], .tfile "239:4")]
        ["udc0"] [Device.KEYBOARD] 1 with
    | error e =>
      have hok : (enable ⟨0, []⟩
          [(["functions", "hid.usb0", "dev"], .tfile "239:4")]
          ["udc0"] [Device.KEYBOARD] 1).isOk = true := by decide
      rw [hrun] at hok
      simp [Except.isOk, Except.toBool] at hok
    | ok r =>
      obtain ⟨p, hp⟩ := (c2_boot_device_override _ _ _ _ _ (by decide) rfl).1 hrun
      simp [Except.map, hp]
      rfl
  · cases hrun : enable ⟨0, []⟩ [(["functions", "hid.usb0", "dev"], .tfile "239:4")]
        ["udc0"] [Device.KEYBOARD] 2 with
    | error e =>
      have hok : (enable ⟨0, []⟩
          [(["functions", "hid.usb0", "dev"], .tfile "239:4")]
          ["udc0"] [Device.KEYBOARD] 2).isOk = true := by decide
      rw [hrun] at hok
      simp [Except.isOk, Except.toBool] at hok
    | ok r =>
      obtain ⟨p, hp⟩ := (c2_boot_device_override _ _ _ _ _ (by decide) rfl).2 hrun
      simp [Except.map, hp]
      rfl

/-- C6 (code evaluation): `enable` performs no validation of `boot_device`.
With the out-of-range selector `3` it proceeds to set `this.boot_device`,
build the gadget for the caller's devices and bind the controller, instead
of failing with a configuration error as its own docstring ("No other
values are allowed") requires. -/
theorem c6_invalid_boot_device_builds :
    (enable ⟨0, []⟩ [(["functions", "hid.usb1", "dev"], .tfile "239:0")]
        ["udc0"] [Device.KEYBOARD] 3).map
      (fun r => (r.st.boot_device, r.st.devices.length,
        r.fs.get ["UDC"], r.fs.get ["idVendor"])) =
    .ok (3, 1, some (.tfile "udc0"), some (.tfile "7531")) := by
  decide

/-- C7 counterexample: the claim says that when the function node already
exists, skipping it still leaves "the function's attributes and link ...
consistent with the spec'd result".  Starting from a partial build in which
`functions/hid.usb1` exists but carries no attributes and no link, `enable`
succeeds yet leaves the link and the protocol attribute missing: the
`continue` skips the whole iteration, so nothing is repaired. -/
theorem c7_counterexample :
    (enable ⟨0, []⟩ [(["functions", "hid.usb1"], .dir),
        (["functions", "hid.usb1", "dev"], .tfile "239:0")]
        ["udc0"] [Device.KEYBOARD] 0).map
      (fun r => (r.fs.get ["configs", "c.1", "hid.usb1"],
        r.fs.get ["functions", "hid.usb1", "protocol"])) =
    .ok (none, none) := by
  decide

/-- C7 (amended): if the function node already exists, the whole report-ID
iteration is skipped without error — including the attribute writes and the
link step, so an absent link is not re-created; and when the function node
is created fresh but the configuration link is already present (a dangling
link), the link step raises `FileExistsError` (the `except` clause only
swallows `FileNotFoundError`). -/
theorem c7_function_node_skip
    (fs : Fs) (d : Device) (ri rid len : Nat) (e e' : Entry) :
    (fs.get (funcRoot rid) = some e → functionBuild fs d ri rid = .ok fs) ∧
    (fs.get (funcRoot rid) = none → d.in_report_lengths.get? ri = some len →
      fs.get ["configs", "c.1", funcName rid] = some e' →
      functionBuild fs d ri rid = .error .fileExists) := by
  constructor
  · intro h
    exact functionBuild_skip h
  · intro hroot hlen hlink
    exact functionBuild_link_exists hroot hlen hlink

/-- Witness for C7 at concrete inputs: a pre-existing `hid.usb1` node makes
the iteration a no-op, and a dangling link makes it fail with
`FileExistsError`. -/
theorem c7_witness :
    functionBuild [(["functions", "hid.usb1"], .dir)] Device.KEYBOARD 0 1 =
      .ok [(["functions", "hid.usb1"], .dir)] ∧
    functionBuild [(["configs", "c.1", "hid.usb1"],
        .link ["functions", "hid.usb1"])] Device.KEYBOARD 0 1 =
      .error .fileExists := by
  constructor
  · exact (c7_function_node_skip [(["functions", "hid.usb1"], .dir)]
      Device.KEYBOARD 0 1 8 .dir .dir).1 (by decide)
  · exact (c7_function_node_skip
      [(["configs", "c.1", "hid.usb1"], .link ["functions", "hid.usb1"])]
      Device.KEYBOARD 0 1 8 .dir (.link ["functions", "hid.usb1"])).2
      (by decide) (by decide) (by decide)

/-- C8 counterexample: the claim says that after `disable()` the transport's
handle cache contains no entry for the device's paths.  Starting with a
cached descriptor for `/dev/hidg0`, `disable()` succeeds but the cache entry
is still present — the function never touches `Device._device_fds`. -/
theorem c8_counterexample :
    (disableProc ⟨⟨0, []⟩, [], [("/dev/hidg0", 3)]⟩).map
      (fun p => cacheGet p.fdCache "/dev/hidg0") = .ok (some 3) := by
  decide

/-- C8 (amended): `disable()` leaves the descriptor cache exactly as it was;
cached handles are released only when a `Device` object is destroyed —
`__del__` closes every cached descriptor and empties the shared cache. -/
theorem c8_disable_leaves_cache (p p' : ProcState) (c : FdCache) :
    (disableProc p = .ok p' → p'.fdCache = p.fdCache) ∧ delDevice c = [] := by
  constructor
  · intro h
    unfold disableProc at h
    cases hd : disable p.st p.fs with
    | ok q =>
      obtain ⟨st', fs'⟩ := q
      rw [hd] at h
      have hp' : p' = ⟨st', fs', p.fdCache⟩ := by simpa using h.symm
      rw [hp']
    | error e => rw [hd] at h; simp at h
  · exact delDevice_empty c

/-- Witness for C8 at a concrete input: `disable` over an empty tree leaves
the one-entry cache unchanged, while `__del__` empties it. -/
theorem c8_witness :
    disableProc ⟨⟨0, []⟩, [], [("/dev/hidg0", 3)]⟩ =
      .ok ⟨⟨0, []⟩, [], [("/dev/hidg0", 3)]⟩ ∧
    (⟨⟨0, []⟩, [], [("/dev/hidg0", 3)]⟩ : ProcState).fdCache =
      [("/dev/hidg0", 3)] ∧
    delDevice [("/dev/hidg0", 3)] = [] := by
  refine ⟨by decide, ?_, ?_⟩
  · exact (c8_disable_leaves_cache ⟨⟨0, []⟩, [], [("/dev/hidg0", 3)]⟩
      ⟨⟨0, []⟩, [], [("/dev/hidg0", 3)]⟩ [("/dev/hidg0", 3)]).1 (by decide)
  · exact (c8_disable_leaves_cache ⟨⟨0, []⟩, [], [("/dev/hidg0", 3)]⟩
      ⟨⟨0, []⟩, [], [("/dev/hidg0", 3)]⟩ [("/dev/hidg0", 3)]).2

/-- C9: controller binding.  With no controller enumerated, a building
`enable` never succeeds (the `next()` on the empty listing raises and the
error is surfaced to the caller); with at least one controller, a
successful `enable` has bound the gadget to the first controller found by
writing its name to the `UDC` attribute. -/
theorem c9_controller_binding
    (st0 : ModuleState) (fs : Fs) (u : String) (us : List String)
    (ds : List Device) (b : Int) (r : EnableOk) (hne : ds ≠ []) :
    (enable st0 fs [] ds b ≠ .ok r) ∧
    (enable st0 fs (u :: us) ds b = .ok r →
      r.fs.get ["UDC"] = some (.tfile u)) := by
  constructor
  · intro h
    obtain ⟨fsH, stB, fsB, fsU, updated, hH, hL, hU, hR, hr⟩ :=
      enable_ok_parts hne h
    obtain ⟨u', rest, habs, _, _⟩ := bindUdc_ok hU
    simp at habs
  · intro h
    obtain ⟨fsH, stB, fsB, fsU, updated, hH, hL, hU, hR, hr⟩ :=
      enable_ok_parts hne h
    obtain ⟨u', rest, heq, _, hset⟩ := bindUdc_ok hU
    have hu : u' = u := by
      simpa using congrArg List.head? heq.symm
    rw [hr]
    show fsU.get ["UDC"] = some (.tfile u)
    rw [hset, Fs.get_set, if_pos rfl, hu]

/-- Witness for C9 at concrete inputs: with no controller the build fails;
with one controller its name ends up in `UDC`. -/
theorem c9_witness :
    (enable ⟨0, []⟩ [(["functions", "hid.usb1", "dev"], .tfile "239:0")]
        [] [Device.KEYBOARD] 0 ≠ .ok ⟨⟨0, []⟩, [], []⟩) ∧
    ((enable ⟨0, []⟩ [(["functions", "hid.usb1", "dev"], .tfile "239:0")]
        ["dummy_udc"] [Device.KEYBOARD] 0).map
      (fun r => r.fs.get ["UDC"]) = .ok (some (.tfile "dummy_udc"))) := by
  constructor
  · exact (c9_controller_binding ⟨0, []⟩
      [(["functions", "hid.usb1", "dev"], .tfile "239:0")] "x" []
      [Device.KEYBOARD] 0 ⟨⟨0, []⟩, [], []⟩ (by decide)).1
  · cases hrun : enable ⟨0, []⟩
        [(["functions", "hid.usb1", "dev"], .tfile "239:0")]
        ["dummy_udc"] [Device.KEYBOARD] 0 with
    | error e =>
      have hok : (enable ⟨0, []⟩
          [(["functions", "hid.usb1", "dev"], .tfile "239:0")]
          ["dummy_udc"] [Device.KEYBOARD] 0).isOk = true := by decide
      rw [hrun] at hok
      simp [Except.isOk, Except.toBool] at hok
    | ok r =>
      have := (c9_controller_binding ⟨0, []⟩
        [(["functions", "hid.usb1", "dev"], .tfile "239:0")] "dummy_udc" []
        [Device.KEYBOARD] 0 r (by decide)).2 hrun
      simp [Except.map, this]

/-- C3: `send_report` framing.  When the effective report ID is positive the
frame handed to `fd.write` is exactly one report-ID byte followed by the
payload; when the device uses report ID 0 the payload is written unchanged
with no prefix byte. -/
theorem c3_send_report_framing (fs : Fs) (d : Device) (report : List Nat)
    (report_id : Option Nat) (r : Nat) (p : String) (frame : List Nat)
    (hr : effectiveReportId report_id d.report_ids = .ok r)
    (h : send_report fs d report report_id = .ok (p, frame)) :
    frame = if 0 < r then r :: report else report := by
  unfold send_report at h
  rw [hr, ok_bind] at h
  obtain ⟨path, hp, h2⟩ := bindE_ok h
  clear h
  by_cases h0 : 0 < r
  · rw [if_pos h0] at h2 ⊢
    obtain ⟨bts, hb, h3⟩ := bindE_ok h2
    clear h2
    unfold intToBytes1 at hb
    by_cases h256 : r < 256
    · rw [if_pos h256] at hb
      have hbts : bts = [r] := by simpa using hb.symm
      subst hbts
      have h4 : (path, (r :: report : List Nat)) = (p, frame) := by
        simpa using h3
      exact ((Prod.mk.injEq .. ▸ h4).2).symm
    · rw [if_neg h256] at hb
      simp at hb
  · rw [if_neg h0] at h2 ⊢
    have h4 : (path, report) = ((p, frame) : String × List Nat) := by
      simpa using h2
    exact ((Prod.mk.injEq .. ▸ h4).2).symm

/-- Witness for C3 at concrete inputs: the consumer-control profile (report
ID 3) frames `[0xAA, 0xBB]` as `[0x03, 0xAA, 0xBB]`, and the boot keyboard
(report ID 0) writes `[0xAA]` unchanged. -/
theorem c3_witness :
    (effectiveReportId none Device.CONSUMER_CONTROL.report_ids = .ok 3) ∧
    (send_report [(["functions", "hid.usb3", "dev"], .tfile "239:1")]
        Device.CONSUMER_CONTROL [170, 187] none =
      .ok ("/dev/hidg1", [3, 170, 187])) ∧
    ([3, 170, 187] = if 0 < 3 then 3 :: [170, 187] else [170, 187]) ∧
    (effectiveReportId none Device.BOOT_KEYBOARD.report_ids = .ok 0) ∧
    (send_report [(["functions", "hid.usb0", "dev"], .tfile "239:2")]
        Device.BOOT_KEYBOARD [170] none = .ok ("/dev/hidg2", [170])) ∧
    ([170] = if 0 < 0 then 0 :: [170] else [170]) := by
  refine ⟨by decide, by decide, ?_, by decide, by decide, ?_⟩
  · exact c3_send_report_framing
      [(["functions", "hid.usb3", "dev"], .tfile "239:1")]
      Device.CONSUMER_CONTROL [170, 187] none 3 "/dev/hidg1" [3, 170, 187]
      (by decide) (by decide)
  · exact c3_send_report_framing
      [(["functions", "hid.usb0", "dev"], .tfile "239:2")]
      Device.BOOT_KEYBOARD [170] none 0 "/dev/hidg2" [170]
      (by decide) (by decide)

/-- C4: `send_report_nonblocking` failure policy.  If the write would block
(`EAGAIN`), a `BlockingIOError` is raised and the cached descriptor for the
device path stays in the cache; on any other `OSError` the cached
descriptor for that path is closed and evicted before the error propagates,
so no cache entry remains for the path. -/
theorem c4_nonblocking_cache_policy (fs : Fs) (d : Device)
    (report : List Nat) (report_id : Option Nat) (cache : FdCache)
    (openRes : Except Nat Nat) (writeRes : Option Nat) (r : Nat)
    (path : String) (c' : FdCache) (out : Except PyErr (String × List Nat))
    (hr : effectiveReportId report_id d.report_ids = .ok r)
    (hp : get_device_path fs d (some r) = .ok path)
    (h : send_report_nonblocking fs d report report_id cache openRes writeRes
      = (c', out)) :
    (out = .error .wouldBlock → openRes ≠ .error 11 →
      (cacheGet c' path).isSome) ∧
    (∀ n, out = .error (.osError n) → cacheGet c' path = none) := by
  unfold send_report_nonblocking at h
  rw [hr] at h
  dsimp only at h
  rw [hp] at h
  dsimp only at h
  cases hg : getNonblockingFd cache path openRes with
  | error errno =>
    rw [hg] at h
    dsimp only at h
    by_cases h11 : errno = 11
    · rw [if_pos h11] at h
      obtain ⟨h1, h2⟩ := Prod.mk.injEq .. ▸ h
      subst h1
      subst h2
      constructor
      · intro _ hopen
        obtain ⟨_, hor⟩ := getNonblockingFd_err hg
        exact absurd (h11 ▸ hor) hopen
      · intro n hout
        simp at hout
    · rw [if_neg h11] at h
      obtain ⟨h1, h2⟩ := Prod.mk.injEq .. ▸ h
      subst h1
      subst h2
      constructor
      · intro hout
        simp at hout
      · intro n _
        exact cacheGet_closeFd _ _
  | ok pr =>
    obtain ⟨fd, cache₁⟩ := pr
    rw [hg] at h
    dsimp only at h
    cases hfr : (if 0 < r then (intToBytes1 r).map (· ++ report)
        else Except.ok report) with
    | error e =>
      rw [hfr] at h
      dsimp only at h
      have he : e = .overflow := by
        by_cases h0 : 0 < r
        · rw [if_pos h0] at hfr
          unfold intToBytes1 at hfr
          by_cases h256 : r < 256
          · rw [if_pos h256] at hfr
            simp [Except.map] at hfr
          · rw [if_neg h256] at hfr
            simpa [Except.map] using hfr.symm
        · rw [if_neg h0] at hfr
          simp at hfr
      subst he
      obtain ⟨h1, h2⟩ := Prod.mk.injEq .. ▸ h
      subst h1
      subst h2
      constructor
      · intro hout
        simp at hout
      · intro n hout
        simp at hout
    | ok frame =>
      rw [hfr] at h
      dsimp only at h
      cases writeRes with
      | none =>
        dsimp only at h
        obtain ⟨h1, h2⟩ := Prod.mk.injEq .. ▸ h
        subst h1
        subst h2
        constructor
        · intro hout
          simp at hout
        · intro n hout
          simp at hout
      | some n0 =>
        dsimp only at h
        by_cases h11 : n0 = 11
        · rw [if_pos h11] at h
          obtain ⟨h1, h2⟩ := Prod.mk.injEq .. ▸ h
          subst h1
          subst h2
          constructor
          · intro _ _
            rw [getNonblockingFd_ok hg]
            simp
          · intro n hout
            simp at hout
        · rw [if_neg h11] at h
          obtain ⟨h1, h2⟩ := Prod.mk.injEq .. ▸ h
          subst h1
          subst h2
          constructor
          · intro hout
            simp at hout
          · intro n _
            exact cacheGet_closeFd _ _

/-- Witness for C4 at concrete inputs: a blocked write (`errno 11`) leaves
the cached descriptor in place; an I/O failure (`errno 5`) evicts it. -/
theorem c4_witness :
    (effectiveReportId none Device.KEYBOARD.report_ids = .ok 1) ∧
    (get_device_path [(["functions", "hid.usb1", "dev"], .tfile "239:0")]
        Device.KEYBOARD (some 1) = .ok "/dev/hidg0") ∧
    (send_report_nonblocking [(["functions", "hid.usb1", "dev"], .tfile "239:0")]
        Device.KEYBOARD [7] none [("/dev/hidg0", 9)] (.ok 9) (some 11) =
      ([("/dev/hidg0", 9)], .error .wouldBlock)) ∧
    (cacheGet [("/dev/hidg0", 9)] "/dev/hidg0").isSome ∧
    (send_report_nonblocking [(["functions", "hid.usb1", "dev"], .tfile "239:0")]
        Device.KEYBOARD [7] none [("/dev/hidg0", 9)] (.ok 9) (some 5) =
      ([], .error (.osError 5))) ∧
    cacheGet [] "/dev/hidg0" = none := by
  refine ⟨by decide, by decide, by decide, ?_, by decide, ?_⟩
  · exact (c4_nonblocking_cache_policy
      [(["functions", "hid.usb1", "dev"], .tfile "239:0")]
      Device.KEYBOARD [7] none
      [("/dev/hidg0", 9)] (.ok 9) (some 11) 1 "/dev/hidg0"
      [("/dev/hidg0", 9)] (.error .wouldBlock)
      (by decide) (by decide) (by decide)).1 rfl (by decide)
  · exact (c4_nonblocking_cache_policy
      [(["functions", "hid.usb1", "dev"], .tfile "239:0")]
      Device.KEYBOARD [7] none
      [("/dev/hidg0", 9)] (.ok 9) (some 5) 1 "/dev/hidg0"
      [] (.error (.osError 5))
      (by decide) (by decide) (by decide)).2 5 rfl

/-- C5: `get_last_received_report` either installs freshly received bytes in
the per-device cache and returns them, or — when no data is available —
returns the existing cache unchanged, which is the distinguished `None`
when nothing has ever been received. -/
theorem c5_get_last_received_report (fs : Fs) (d : Device)
    (report_id : Option Nat) (readRes : Option (List Nat)) (d' : Device)
    (out : Option (List Nat))
    (h : get_last_received_report fs d report_id readRes = .ok (d', out)) :
    d'.lastReceivedReport = readRes.elim d.lastReceivedReport some ∧
    out = d'.lastReceivedReport ∧ (readRes = none → d' = d) := by
  unfold get_last_received_report at h
  obtain ⟨rid, hrid, h2⟩ := bindE_ok h
  clear h
  obtain ⟨pth, hpth, h3⟩ := bindE_ok h2
  clear h2
  obtain ⟨len, hlen, h4⟩ := bindE_ok h3
  clear h3
  cases readRes with
  | some r =>
    dsimp only at h4
    have hpair : ({ d with lastReceivedReport := some r },
        (some r : Option (List Nat))) = (d', out) := by simpa using h4
    obtain ⟨h5, h6⟩ := Prod.mk.injEq .. ▸ hpair
    subst h5
    subst h6
    exact ⟨rfl, rfl, by intro hc; cases hc⟩
  | none =>
    dsimp only at h4
    have hpair : (d, d.lastReceivedReport) = (d', out) := by simpa using h4
    obtain ⟨h5, h6⟩ := Prod.mk.injEq .. ▸ hpair
    subst h5
    subst h6
    exact ⟨rfl, rfl, fun _ => rfl⟩

/-- Witness for C5 at concrete inputs, mirroring the spec's example run:
never-received returns `None`; a host write of `[0x01]` is returned and
cached; a later call with no new data returns the cached `[0x01]`. -/
theorem c5_witness :
    (get_last_received_report [(["functions", "hid.usb0", "dev"], .tfile "239:5")]
        Device.BOOT_KEYBOARD none none = .ok (Device.BOOT_KEYBOARD, none)) ∧
    (Device.BOOT_KEYBOARD.lastReceivedReport =
      (none : Option (List Nat)).elim Device.BOOT_KEYBOARD.lastReceivedReport some) ∧
    (get_last_received_report [(["functions", "hid.usb0", "dev"], .tfile "239:5")]
        Device.BOOT_KEYBOARD none (some [1]) =
      .ok ({ Device.BOOT_KEYBOARD with lastReceivedReport := some [1] }, some [1])) ∧
    (({ Device.BOOT_KEYBOARD with lastReceivedReport := some [1] }).lastReceivedReport =
      (some [1] : Option (List Nat)).elim Device.BOOT_KEYBOARD.lastReceivedReport some) ∧
    (get_last_received_report [(["functions", "hid.usb0", "dev"], .tfile "239:5")]
        { Device.BOOT_KEYBOARD with lastReceivedReport := some [1] } none none =
      .ok ({ Device.BOOT_KEYBOARD with lastReceivedReport := some [1] }, some [1])) := by
  refine ⟨by decide, ?_, by decide, ?_, by decide⟩
  · exact (c5_get_last_received_report
      [(["functions", "hid.usb0", "dev"], .tfile "239:5")]
      Device.BOOT_KEYBOARD none none Device.BOOT_KEYBOARD none (by decide)).1
  · exact (c5_get_last_received_report
      [(["functions", "hid.usb0", "dev"], .tfile "239:5")]
      Device.BOOT_KEYBOARD none (some [1])
      { Device.BOOT_KEYBOARD with lastReceivedReport := some [1] } (some [1])
      (by decide)).1

/-- C10 (implicit): passing `report_id=0` is indistinguishable from omitting
the argument in `get_device_path`, `send_report`, `send_report_nonblocking`
and `get_last_received_report`: Python's `report_id or self.report_ids[0]`
treats `0` as falsy, so the first declared report ID is used instead. -/
theorem c10_report_id_zero_is_default (fs : Fs) (d : Device)
    (report : List Nat) (cache : FdCache) (openRes : Except Nat Nat)
    (writeRes : Option Nat) (readRes : Option (List Nat)) :
    get_device_path fs d (some 0) = get_device_path fs d none ∧
    send_report fs d report (some 0) = send_report fs d report none ∧
    send_report_nonblocking fs d report (some 0) cache openRes writeRes =
      send_report_nonblocking fs d report none cache openRes writeRes ∧
    get_last_received_report fs d (some 0) readRes =
      get_last_received_report fs d none readRes := by
  have he : effectiveReportId (some 0) d.report_ids =
      effectiveReportId none d.report_ids := rfl
  refine ⟨?_, ?_, ?_, ?_⟩
  · unfold get_device_path
    rw [he]
  · unfold send_report
    rw [he]
  · unfold send_report_nonblocking
    rw [he]
  · unfold get_last_received_report
    rw [he]

end UsbHid
